import Mathlib

/-!
Verification of the VPP dispatch simulation core.

This file gives a shallow embedding, in Lean 4, of the simulation core of the
VPP dispatch game: the per-asset physics models (AssetModels), the composable
dispatch strategy engine (DispatchStrategies), and the tick orchestrator
(SimulationEngine), together with theorems settling the specification claims
about them.

Modelling conventions:
* JavaScript numbers are modelled as exact rationals (ℚ); float rounding is
  out of scope.  The single use of a non-integer exponent (Math.pow in the
  penalty) is modelled over ℝ with Real.rpow.
* Math.random() is the global, non-seedable generator; it is modelled as an
  ambient stream of draws in [0,1) together with a cursor (the Rng structure),
  threaded through every stochastic call site in the order the source draws.
* Math.exp and Math.sin are only reachable on code paths that no concrete
  evaluation below takes; they are modelled as parameters (JsMath) so that all
  universally quantified theorems hold for the actual transcendental
  functions in particular.
* Identifier names follow the source, with a few renamings forced by the
  development (noted where they occur).
-/

namespace Vpp

/-- TIMESTEP_MINUTES / 60 in the source: one 5-minute tick expressed in hours. -/
def TIMESTEP_HOURS : ℚ := 5 / 60

/-- Parameters for the transcendental library functions the strategy layer can
call (Math.exp, Math.sin).  Theorems below are proved for every JsMath, hence
in particular for the real exp and sin restricted to the rationals. -/
structure JsMath where
  exp : ℚ → ℚ
  sin : ℚ → ℚ
  sqrt : ℚ → ℚ

/-- The ambient random number generator: the stream of values produced by
successive random() calls together with the index of the next draw.  The
source calls the global generator, which cannot be seeded or reset; a run of
the program consumes a prefix of one single stream. -/
structure Rng where
  stream : ℕ → ℚ
  pos : ℕ

/-- One random() call: yields the next stream value and advances the cursor. -/
def Rng.next (r : Rng) : ℚ × Rng :=
  (r.stream r.pos, ⟨r.stream, r.pos + 1⟩)

/-- A stream whose draws all lie in [0,1), the range of random(). -/
def Rng.valid (r : Rng) : Prop :=
  ∀ i : ℕ, 0 ≤ r.stream i ∧ r.stream i < 1

/-- Math.round on a rational (round half towards positive infinity). -/
def jround (x : ℚ) : ℚ := (⌊x + 1/2⌋ : ℤ)

/-- Math.round(x * 10) / 10, the one-decimal rounding used for recorded kW. -/
def round1 (x : ℚ) : ℚ := jround (x * 10) / 10

/-- JavaScript % on nonnegative rationals (used for the hour-of-day wrap). -/
def qmod24 (x : ℚ) : ℚ := x - 24 * (⌊x / 24⌋ : ℤ)

-- ---------- Scenario-level configuration (types.ts) ----------

structure BaselineError where
  sigma_bias : ℚ
  sigma_drift : ℚ
  rho : ℚ
deriving Repr, DecidableEq

structure MeasurementNoise where
  pct_uniform : ℚ
deriving Repr, DecidableEq

structure Noncompliance where
  probability : ℚ
deriving Repr, DecidableEq

structure Weather where
  outdoor_temp_f : List ℚ
deriving Repr, DecidableEq

/-- The objective record; only target_kw is read by the simulation core. -/
structure Objective where
  target_kw : Option ℚ
  target_mwh : Option ℚ
  peak_cap_kw : Option ℚ
deriving Repr, DecidableEq

/-- ScenarioConfig.  The ISO-8601 start_time string is represented by the hour
the source extracts from it with Date.getHours(); nothing else of the string
is ever read by the core. -/
structure ScenCfg where
  start_hour : ℕ
  timesteps : ℕ
  weather : Weather
  objective : Objective
  baseline_error : BaselineError
  measurement_noise : MeasurementNoise
  noncompliance : Noncompliance
deriving Repr, DecidableEq

-- ---------- Asset data model (types.ts) ----------

inductive HvacMode | cooling | heating
deriving Repr, DecidableEq

structure HvacResiParams where
  mode : HvacMode
  pref_setpoint_f : ℚ
  comfort_max_f : ℚ
  comfort_min_f : ℚ
  alpha : ℚ
  beta : ℚ
  hvac_kw : ℚ
  deadband_f : ℚ
deriving Repr, DecidableEq

/-- HVAC state.  setpoint_f is an Option: none models the NaN value that the
source produces when a mismatched command (one without a delta_setpoint_f
field) is cast to HvacCommand and added to the preferred setpoint.  Every
comparison against a none setpoint is false, exactly as for NaN. -/
structure HvacResiState where
  tin_f : ℚ
  hvac_on : Bool
  setpoint_f : Option ℚ
  dropped : Bool
  baseline_bias : ℚ
  baseline_drift : ℚ
deriving Repr, DecidableEq

structure HvacResi where
  id : String
  params : HvacResiParams
  state : HvacResiState
deriving Repr, DecidableEq

structure BatteryResiParams where
  e_kwh : ℚ
  p_dis_kw : ℚ
  p_ch_kw : ℚ
  soc_reserve : ℚ
deriving Repr, DecidableEq

structure BatteryResiState where
  soc : ℚ
  dropped : Bool
  baseline_bias : ℚ
  baseline_drift : ℚ
deriving Repr, DecidableEq

structure BatteryResi where
  id : String
  params : BatteryResiParams
  state : BatteryResiState
deriving Repr, DecidableEq

/-- EV parameters; the display-only charger_level field is omitted. -/
structure EvResiParams where
  p_max_kw : ℚ
  e_req_kwh : ℚ
  e_capacity_kwh : ℚ
  t_arrival : ℕ
  t_depart : ℕ
deriving Repr, DecidableEq

structure EvResiState where
  e_kwh : ℚ
  plugged : Bool
  dropped : Bool
  override_active : Bool
  baseline_bias : ℚ
  baseline_drift : ℚ
deriving Repr, DecidableEq

structure EvResi where
  id : String
  params : EvResiParams
  state : EvResiState
deriving Repr, DecidableEq

structure FleetVehicle where
  id : String
  p_max_kw : ℚ
  e_req_kwh : ℚ
  e_capacity_kwh : ℚ
  t_arrival : ℕ
  t_depart : ℕ
deriving Repr, DecidableEq

structure FleetVehicleState where
  e_kwh : ℚ
  plugged : Bool
deriving Repr, DecidableEq

structure FleetSiteParams where
  u_site_max_kw : ℚ
  vehicles : List FleetVehicle
deriving Repr, DecidableEq

/-- Fleet state; the vehicle_state record is an association list keyed by
vehicle id, in insertion order. -/
structure FleetSiteState where
  vehicle_state : List (String × FleetVehicleState)
  dropped : Bool
  baseline_bias : ℚ
  baseline_drift : ℚ
deriving Repr, DecidableEq

structure FleetSite where
  id : String
  params : FleetSiteParams
  state : FleetSiteState
deriving Repr, DecidableEq

structure BusinessHours where
  start_hour : ℚ
  end_hour : ℚ
deriving Repr, DecidableEq

structure CiBuildingParams where
  smax_hvac_kw : ℚ
  fatigue_k : ℚ
  fatigue_a : ℚ
  fatigue_b : ℚ
  process_load_kw : ℚ
  max_process_toggles : ℕ
  business_hours : BusinessHours
deriving Repr, DecidableEq

structure CiBuildingState where
  fatigue : ℚ
  hvac_shed_kw : ℚ
  process_on : Bool
  process_toggles_used : ℕ
  dropped : Bool
  baseline_bias : ℚ
  baseline_drift : ℚ
deriving Repr, DecidableEq

structure CiBuilding where
  id : String
  params : CiBuildingParams
  state : CiBuildingState
deriving Repr, DecidableEq

inductive AssetType
  | hvac_resi | battery_resi | ev_resi | fleet_site | ci_building
deriving Repr, DecidableEq

/-- The five-variant asset union. -/
inductive Asset
  | hvac (a : HvacResi)
  | battery (a : BatteryResi)
  | ev (a : EvResi)
  | fleet (a : FleetSite)
  | ci (a : CiBuilding)
deriving Repr, DecidableEq

def Asset.type : Asset → AssetType
  | .hvac _ => .hvac_resi
  | .battery _ => .battery_resi
  | .ev _ => .ev_resi
  | .fleet _ => .fleet_site
  | .ci _ => .ci_building

def Asset.id : Asset → String
  | .hvac a => a.id
  | .battery a => a.id
  | .ev a => a.id
  | .fleet a => a.id
  | .ci a => a.id

/-- The state.dropped flag of any variant. -/
def Asset.droppedFlag : Asset → Bool
  | .hvac a => a.state.dropped
  | .battery a => a.state.dropped
  | .ev a => a.state.dropped
  | .fleet a => a.state.dropped
  | .ci a => a.state.dropped

-- ---------- Commands (types.ts) ----------

/-- The tagged command union.  Constructor argument names follow the source
field names. -/
inductive AssetCommand
  | hvac (delta_setpoint_f : ℚ)
  | battery (power_kw : ℚ)
  | ev (power_kw : ℚ)
  | fleet (site_power_cap_kw : ℚ)
  | ci (hvac_shed_kw : ℚ) (process_on : Bool)
deriving Repr, DecidableEq

/-- Structural read of the delta_setpoint_f field, as the unchecked cast in
updateAsset performs it: absent on every non-HVAC variant (undefined in JS). -/
def AssetCommand.read_delta_setpoint_f : AssetCommand → Option ℚ
  | .hvac d => some d
  | _ => none

/-- Structural read of the power_kw field: present on both the battery and the
EV command (they share the field name), absent otherwise. -/
def AssetCommand.read_power_kw : AssetCommand → Option ℚ
  | .battery p => some p
  | .ev p => some p
  | _ => none

def AssetCommand.read_site_power_cap_kw : AssetCommand → Option ℚ
  | .fleet c => some c
  | _ => none

def AssetCommand.read_hvac_shed_kw : AssetCommand → Option ℚ
  | .ci s _ => some s
  | _ => none

def AssetCommand.read_process_on : AssetCommand → Option Bool
  | .ci _ b => some b
  | _ => none

/-- A command variant matches the asset variant it is addressed to (the pairs
the dispatch engine actually produces). -/
def commandMatches : Asset → AssetCommand → Prop
  | .hvac _, .hvac _ => True
  | .battery _, .battery _ => True
  | .ev _, .ev _ => True
  | .fleet _, .fleet _ => True
  | .ci _, .ci _ _ => True
  | _, _ => False

structure DispatchCommand where
  asset_id : String
  command : AssetCommand
deriving Repr, DecidableEq

-- ---------- AssetModels: helper functions ----------

/-- applyMeasurementNoise: multiply by 1 + (random()*2 - 1) * noisePct. -/
def applyMeasurementNoise (value noisePct : ℚ) (r : Rng) : ℚ × Rng :=
  let (u, r') := r.next
  (value * (1 + (u * 2 - 1) * noisePct), r')

/-- updateBaselineDrift: AR(1) process drift(t+1) = rho * drift(t) + noise. -/
def updateBaselineDrift (currentDrift rho sigmaDrift : ℚ) (r : Rng) : ℚ × Rng :=
  let (u, r') := r.next
  (rho * currentDrift + (u * 2 - 1) * sigmaDrift, r')

/-- rollNoncompliance: random() < probability. -/
def rollNoncompliance (probability : ℚ) (r : Rng) : Bool × Rng :=
  let (u, r') := r.next
  (decide (u < probability), r')

/-- Shared pattern: if a command object is present, one noncompliance roll
decides whether it is honored (command && !rollNoncompliance(p) in the
source); no roll is drawn when the command is null. -/
def appliedCommand (command : Option AssetCommand) (p : ℚ) (r : Rng) :
    Option AssetCommand × Rng :=
  match command with
  | none => (none, r)
  | some c =>
    let (noncompliant, r') := rollNoncompliance p r
    (if noncompliant then none else some c, r')

-- ---------- AssetModels: HVAC residential ----------

/-- updateHvacResi.  Returns the updated asset, the power delta, and the
advanced generator. -/
def updateHvacResi (asset : HvacResi) (command : Option AssetCommand)
    (outdoorTemp : ℚ) (config : ScenCfg) (r : Rng) : HvacResi × ℚ × Rng :=
  let state := asset.state
  let params := asset.params
  if state.dropped then (asset, 0, r) else
  let (applied, r1) := appliedCommand command config.noncompliance.probability r
  -- Apply command (setpoint shift); a mismatched command has no
  -- delta_setpoint_f field, and pref + undefined is NaN (none).
  let setpoint1 : Option ℚ :=
    match applied with
    | some c => (c.read_delta_setpoint_f).map (fun d => params.pref_setpoint_f + d)
    | none => state.setpoint_f
  -- Thermal model: Tin(t+1) = Tin(t) + alpha*(Tout - Tin) + beta*[on]
  let leakage := params.alpha * (outdoorTemp - state.tin_f)
  let hvacEffect := if state.hvac_on then params.beta else 0
  let tin1 := state.tin_f + leakage + hvacEffect
  -- Thermostat logic with deadband (comparisons against a NaN setpoint are
  -- all false, so hvac_on is left unchanged in that case, as in the source).
  let isCooling := params.mode = HvacMode.cooling
  let hvacOn1 :=
    match setpoint1 with
    | some sp =>
      if isCooling then
        if tin1 > sp + params.deadband_f then true
        else if tin1 < sp - params.deadband_f then false
        else state.hvac_on
      else
        if tin1 < sp - params.deadband_f then true
        else if tin1 > sp + params.deadband_f then false
        else state.hvac_on
    | none => state.hvac_on
  -- Comfort violation -> drop-off
  let dropped1 :=
    if isCooling ∧ tin1 > params.comfort_max_f then true
    else if ¬isCooling ∧ tin1 < params.comfort_min_f then true
    else false
  let (drift1, r2) := updateBaselineDrift state.baseline_drift
    config.baseline_error.rho config.baseline_error.sigma_drift r1
  -- Power delta: baseline (HVAC running) minus actual, with bias and drift.
  let actualPower := if hvacOn1 then params.hvac_kw else 0
  let baselinePower := params.hvac_kw
  let baselineAdjusted := baselinePower * (1 + state.baseline_bias + drift1)
  let (noisy, r3) := applyMeasurementNoise (baselineAdjusted - actualPower)
    config.measurement_noise.pct_uniform r2
  ({ asset with state :=
      { tin_f := tin1
        hvac_on := hvacOn1
        setpoint_f := setpoint1
        dropped := dropped1
        baseline_bias := state.baseline_bias
        baseline_drift := drift1 } },
   max 0 noisy, r3)

-- ---------- AssetModels: battery residential ----------

/-- updateBatteryResi. -/
def updateBatteryResi (asset : BatteryResi) (command : Option AssetCommand)
    (config : ScenCfg) (r : Rng) : BatteryResi × ℚ × Rng :=
  let state := asset.state
  let params := asset.params
  if state.dropped then (asset, 0, r) else
  let (applied, r1) := appliedCommand command config.noncompliance.probability r
  -- Positive = discharge, negative = charge.  If the command lacks a
  -- power_kw field (mismatched variant) both sign tests are false.
  let outSoc : ℚ × ℚ :=
    match applied with
    | some c =>
      match c.read_power_kw with
      | some requestedPower =>
        if requestedPower > 0 then
          let maxDischarge := min params.p_dis_kw
            ((state.soc - params.soc_reserve) * params.e_kwh / TIMESTEP_HOURS)
          let powerOutput := min requestedPower (max 0 maxDischarge)
          (powerOutput, state.soc - powerOutput * TIMESTEP_HOURS / params.e_kwh)
        else if requestedPower < 0 then
          let maxCharge := min params.p_ch_kw
            ((1 - state.soc) * params.e_kwh / TIMESTEP_HOURS)
          let chargeRate := min (-requestedPower) maxCharge
          (-chargeRate, state.soc + chargeRate * TIMESTEP_HOURS / params.e_kwh)
        else (0, state.soc)
      | none => (0, state.soc)
    | none => (0, state.soc)
  let powerOutput := outSoc.1
  let soc1 := outSoc.2
  let (drift1, r2) := updateBaselineDrift state.baseline_drift
    config.baseline_error.rho config.baseline_error.sigma_drift r1
  -- Power delta = discharge power; baseline is an idle battery.
  let powerDelta0 := if powerOutput > 0 then powerOutput else 0
  let (noisy, r3) := applyMeasurementNoise powerDelta0
    config.measurement_noise.pct_uniform r2
  ({ asset with state :=
      { soc := soc1
        dropped := state.dropped
        baseline_bias := state.baseline_bias
        baseline_drift := drift1 } },
   noisy, r3)

-- ---------- AssetModels: EV residential ----------

/-- updateEvResi. -/
def updateEvResi (asset : EvResi) (command : Option AssetCommand)
    (currentTimestep : ℕ) (config : ScenCfg) (r : Rng) : EvResi × ℚ × Rng :=
  let state := asset.state
  let params := asset.params
  if state.dropped then (asset, 0, r) else
  -- Handle arrival/departure.
  let plugged1 :=
    if currentTimestep ≥ params.t_arrival ∧ ¬state.plugged then true
    else state.plugged
  if currentTimestep ≥ params.t_depart then
    ({ asset with state := { state with plugged := false, dropped := true } },
     0, r)
  else if ¬plugged1 then
    ({ asset with state := { state with plugged := plugged1 } }, 0, r)
  else
  -- Deadline constraint.
  let remainingSteps : ℚ := ((params.t_depart : ℚ) - (currentTimestep : ℚ))
  let remainingEnergy := params.e_req_kwh - state.e_kwh
  let maxPossibleEnergy := params.p_max_kw * remainingSteps * TIMESTEP_HOURS
  let override1 :=
    if remainingEnergy > 0 ∧ maxPossibleEnergy ≤ remainingEnergy * (11/10) then
      true
    else state.override_active
  -- Charging power: override forces the max rate and skips the command (and
  -- its noncompliance roll) entirely.
  let cpR : ℚ × Rng :=
    if override1 then (params.p_max_kw, r)
    else
      match command with
      | none => (params.p_max_kw, r)
      | some c =>
        let (noncompliant, r') := rollNoncompliance
          config.noncompliance.probability r
        if noncompliant then (params.p_max_kw, r')
        else
          match c.read_power_kw with
          | some p => (max 0 (min p params.p_max_kw), r')
          -- A mismatched command has no power_kw field; the source computes
          -- max(0, min(undefined, p_max)) = NaN there.  No theorem below
          -- depends on a mismatched command reaching an EV; it is modelled
          -- as the default max rate.
          | none => (params.p_max_kw, r')
  let chargePower := cpR.1
  let r1 := cpR.2
  let e1 := min (state.e_kwh + chargePower * TIMESTEP_HOURS) params.e_capacity_kwh
  let (drift1, r2) := updateBaselineDrift state.baseline_drift
    config.baseline_error.rho config.baseline_error.sigma_drift r1
  -- Power delta = baseline (charging at max rate) - actual.
  let baselinePower := params.p_max_kw * (1 + state.baseline_bias + drift1)
  let (noisy, r3) := applyMeasurementNoise (baselinePower - chargePower)
    config.measurement_noise.pct_uniform r2
  ({ asset with state :=
      { e_kwh := e1
        plugged := plugged1
        dropped := state.dropped
        override_active := override1
        baseline_bias := state.baseline_bias
        baseline_drift := drift1 } },
   max 0 noisy, r3)

-- ---------- AssetModels: fleet site ----------

/-- Association-list read of a vehicle state (the source indexes the
vehicle_state record; the generator always populates every vehicle id). -/
def vsGet (vs : List (String × FleetVehicleState)) (vid : String) :
    FleetVehicleState :=
  match vs.lookup vid with
  | some s => s
  | none => { e_kwh := 0, plugged := false }

/-- Association-list overwrite of a vehicle state. -/
def vsSet (vs : List (String × FleetVehicleState)) (vid : String)
    (s : FleetVehicleState) : List (String × FleetVehicleState) :=
  vs.map (fun p => if p.1 = vid then (p.1, s) else p)

/-- updateFleetSite. -/
def updateFleetSite (asset : FleetSite) (command : Option AssetCommand)
    (currentTimestep : ℕ) (config : ScenCfg) (r : Rng) : FleetSite × ℚ × Rng :=
  let state := asset.state
  let params := asset.params
  if state.dropped then (asset, 0, r) else
  -- Update vehicle plug status.
  let vs1 := params.vehicles.foldl (fun vs v =>
    let s := vsGet vs v.id
    let s := if currentTimestep ≥ v.t_arrival ∧ ¬s.plugged then
        { s with plugged := true } else s
    let s := if currentTimestep ≥ v.t_depart then
        { s with plugged := false } else s
    vsSet vs v.id s) state.vehicle_state
  -- Site power cap from the command, clamped to [0, u_site_max_kw].
  let capR : ℚ × Rng :=
    match command with
    | none => (params.u_site_max_kw, r)
    | some c =>
      let (noncompliant, r') := rollNoncompliance
        config.noncompliance.probability r
      if noncompliant then (params.u_site_max_kw, r')
      else
        match c.read_site_power_cap_kw with
        | some cap => (max 0 (min cap params.u_site_max_kw), r')
        -- Mismatched command: the source computes NaN here; modelled as the
        -- default cap (no theorem depends on this case).
        | none => (params.u_site_max_kw, r')
  let sitePowerCap := capR.1
  let r1 := capR.2
  -- Urgency-based allocation over plugged, needy vehicles.
  let pluggedVehicles := params.vehicles.filter (fun v =>
    let vs := vsGet vs1 v.id
    vs.plugged ∧ vs.e_kwh < v.e_req_kwh ∧ currentTimestep < v.t_depart)
  let urgency := fun (v : FleetVehicle) =>
    let vs := vsGet vs1 v.id
    let remainingEnergy := v.e_req_kwh - vs.e_kwh
    let remainingTime := max 1 ((v.t_depart : ℚ) - (currentTimestep : ℚ)) *
      TIMESTEP_HOURS
    remainingEnergy / remainingTime
  let totalUrgency := (pluggedVehicles.map urgency).sum
  -- Allocate power proportionally.
  let alloc := pluggedVehicles.foldl (fun (acc : List (String × FleetVehicleState) × ℚ) v =>
    let vs := vsGet acc.1 v.id
    let proportion := if totalUrgency > 0 then urgency v / totalUrgency
      else 1 / (pluggedVehicles.length : ℚ)
    let allocatedPower := min v.p_max_kw (proportion * sitePowerCap)
    let e1 := min (vs.e_kwh + allocatedPower * TIMESTEP_HOURS) v.e_capacity_kwh
    (vsSet acc.1 v.id { vs with e_kwh := e1 }, acc.2 + allocatedPower))
    (vs1, 0)
  let vs2 := alloc.1
  let actualSitePower := alloc.2
  let (drift1, r2) := updateBaselineDrift state.baseline_drift
    config.baseline_error.rho config.baseline_error.sigma_drift r1
  let baselinePower := params.u_site_max_kw * (7/10) *
    (1 + state.baseline_bias + drift1)
  let (noisy, r3) := applyMeasurementNoise (baselinePower - actualSitePower)
    config.measurement_noise.pct_uniform r2
  ({ asset with state :=
      { vehicle_state := vs2
        dropped := state.dropped
        baseline_bias := state.baseline_bias
        baseline_drift := drift1 } },
   max 0 noisy, r3)

-- ---------- AssetModels: C&I building ----------

/-- The body of updateCiBuilding once the command roll has resolved the shed
target and the process target (the source's targetHvacShed / targetProcessOn
let-variables). -/
def ciCore (jm : JsMath) (asset : CiBuilding) (targetHvacShed : ℚ)
    (targetProcessOn : Bool) (currentTimestep : ℕ) (startHour : ℕ)
    (config : ScenCfg) (r1 : Rng) : CiBuilding × ℚ × Rng :=
  let state := asset.state
  let params := asset.params
  let currentHour := qmod24 ((startHour : ℚ) + (currentTimestep : ℚ) * (5/60))
  let isBusinessHours :=
    currentHour ≥ params.business_hours.start_hour ∧
    currentHour < params.business_hours.end_hour
  -- HVAC shed bounded by fatigue-decayed capacity Smax * exp(-k * fatigue).
  let availableCapacity := params.smax_hvac_kw *
    jm.exp (-(params.fatigue_k * state.fatigue))
  let actualShed := min targetHvacShed availableCapacity
  -- Fatigue: f(t+1) = max(0, f + a*shedRatio - b*(1 - shedRatio)).
  let shedRatio := actualShed / params.smax_hvac_kw
  let fatigue1 := max 0
    (state.fatigue + params.fatigue_a * shedRatio -
      params.fatigue_b * (1 - shedRatio))
  if fatigue1 > 2 then
    ({ asset with state :=
        { state with
            fatigue := fatigue1
            hvac_shed_kw := actualShed
            dropped := true } }, 0, r1)
  else
  -- Process load curtailment, gated by toggle budget and business hours.
  let toggles : Bool × ℕ :=
    if targetProcessOn ≠ state.process_on then
      if state.process_toggles_used < params.max_process_toggles then
        if ¬isBusinessHours ∨ state.process_toggles_used > 0 then
          (targetProcessOn, state.process_toggles_used + 1)
        else (state.process_on, state.process_toggles_used)
      else (state.process_on, state.process_toggles_used)
    else (state.process_on, state.process_toggles_used)
  let processOn1 := toggles.1
  let togglesUsed1 := toggles.2
  let processLoadDelta := if ¬processOn1 then params.process_load_kw else 0
  let (drift1, r2) := updateBaselineDrift state.baseline_drift
    config.baseline_error.rho config.baseline_error.sigma_drift r1
  let (noisy, r3) := applyMeasurementNoise (actualShed + processLoadDelta)
    config.measurement_noise.pct_uniform r2
  ({ asset with state :=
      { fatigue := fatigue1
        hvac_shed_kw := actualShed
        process_on := processOn1
        process_toggles_used := togglesUsed1
        dropped := false
        baseline_bias := state.baseline_bias
        baseline_drift := drift1 } },
   max 0 noisy, r3)

/-- updateCiBuilding: resolve the command roll (default: no shed, process
unchanged), then run the core. -/
def updateCiBuilding (jm : JsMath) (asset : CiBuilding)
    (command : Option AssetCommand) (currentTimestep : ℕ) (startHour : ℕ)
    (config : ScenCfg) (r : Rng) : CiBuilding × ℚ × Rng :=
  let state := asset.state
  if state.dropped then (asset, 0, r) else
  match command with
  | none => ciCore jm asset 0 state.process_on currentTimestep startHour config r
  | some c =>
    let (noncompliant, r') := rollNoncompliance
      config.noncompliance.probability r
    if noncompliant then
      ciCore jm asset 0 state.process_on currentTimestep startHour config r'
    else
      -- A mismatched command variant has neither field (undefined / NaN in
      -- the source); modelled as the defaults, a case no theorem uses.
      ciCore jm asset ((c.read_hvac_shed_kw).getD 0)
        ((c.read_process_on).getD state.process_on) currentTimestep startHour
        config r'

-- ---------- AssetModels: unified update ----------

/-- updateAsset: dynamic dispatch on the asset variant.  The source casts the
command to the matching command type without any runtime check; the cast is
modelled by the structural field reads inside each per-type function. -/
def updateAsset (jm : JsMath) (asset : Asset) (command : Option AssetCommand)
    (currentTimestep : ℕ) (outdoorTemp : ℚ) (startHour : ℕ) (config : ScenCfg)
    (r : Rng) : Asset × ℚ × Rng :=
  match asset with
  | .hvac a =>
    let (a', d, r') := updateHvacResi a command outdoorTemp config r
    (.hvac a', d, r')
  | .battery a =>
    let (a', d, r') := updateBatteryResi a command config r
    (.battery a', d, r')
  | .ev a =>
    let (a', d, r') := updateEvResi a command currentTimestep config r
    (.ev a', d, r')
  | .fleet a =>
    let (a', d, r') := updateFleetSite a command currentTimestep config r
    (.fleet a', d, r')
  | .ci a =>
    let (a', d, r') := updateCiBuilding jm a command currentTimestep startHour config r
    (.ci a', d, r')

-- ---------- Strategy taxonomy (types.ts) ----------

inductive DecisionFramework
  | deterministic_policy | greedy_myopic | stochastic | feedback_control
deriving Repr, DecidableEq

inductive FrameworkSubtype
  | static_priority | threshold_triggered | state_machine | scenario_tree
  | max_capacity_now | min_risk_now | best_efficiency_now
  | expected_value | chance_constrained | monte_carlo_weighted
  | error_correction | adaptive_weighting | pid_like_control
deriving Repr, DecidableEq

inductive ObjectiveFunction
  | capacity | risk_minimization | efficiency | regret_minimization
  | learning_oriented
deriving Repr, DecidableEq

inductive SelectionOrdering
  | batteries_first | hvac_first | high_load_reduction_first
  | balanced_weighting
  | highest_trust_score | lowest_variance | best_historical_delivery
  | highest_headroom | lowest_marginal_comfort_cost | highest_soc_buffer
  | least_recently_dispatched | round_robin | fatigue_balanced
deriving Repr, DecidableEq

inductive RiskPosture
  | risk_averse | neutral | opportunity_seeking | deadline_aware
deriving Repr, DecidableEq

inductive FeedbackMode
  | noFeedback | closed_loop | post_event_learning
deriving Repr, DecidableEq

structure StrategyConfig where
  decisionFramework : DecisionFramework
  frameworkSubtype : FrameworkSubtype
  objective : ObjectiveFunction
  selectionOrderings : List SelectionOrdering
  riskPosture : RiskPosture
  feedbackMode : FeedbackMode
deriving Repr, DecidableEq

structure RiskPostureParams where
  reserveMargin : ℚ
  dispatchTiming : ℚ
  rampUpSpeed : ℚ
  conservationFactor : ℚ
deriving Repr, DecidableEq

/-- RISK_POSTURE_PARAMS from types.ts. -/
def RISK_POSTURE_PARAMS : RiskPosture → RiskPostureParams
  | .risk_averse =>
    { reserveMargin := 4/10, dispatchTiming := -(5/10), rampUpSpeed := 3/10,
      conservationFactor := 7/10 }
  | .neutral =>
    { reserveMargin := 25/100, dispatchTiming := 0, rampUpSpeed := 5/10,
      conservationFactor := 5/10 }
  | .opportunity_seeking =>
    { reserveMargin := 15/100, dispatchTiming := 3/10, rampUpSpeed := 6/10,
      conservationFactor := 3/10 }
  | .deadline_aware =>
    { reserveMargin := 35/100, dispatchTiming := 0, rampUpSpeed := 25/100,
      conservationFactor := 6/10 }

/-- DEFAULT_STRATEGY_CONFIG from types.ts. -/
def DEFAULT_STRATEGY_CONFIG : StrategyConfig :=
  { decisionFramework := .feedback_control
    frameworkSubtype := .error_correction
    objective := .capacity
    selectionOrderings := [.balanced_weighting, .highest_headroom]
    riskPosture := .neutral
    feedbackMode := .closed_loop }

inductive DifficultyLevel | easy | medium | hard
deriving Repr, DecidableEq

/-- One difficulty preset.  The source field over_performance_penalty_[r-a-t-i-o]
is renamed over_penalty_scale here (its final letters collide with a reserved
suffix); it is the factor applied to the penalty when achieved exceeds target. -/
structure DifficultyPreset where
  target_mw : ℚ
  noncompliance : ℚ
  response_variability : ℚ
  headroom_multiplier : ℚ
  penalty_exponent : ℚ
  over_penalty_scale : ℚ
deriving Repr, DecidableEq

/-- DIFFICULTY_PRESETS from types.ts. -/
def DIFFICULTY_PRESETS : DifficultyLevel → DifficultyPreset
  | .easy =>
    { target_mw := 5, noncompliance := 5/100, response_variability := 1/10,
      headroom_multiplier := 4, penalty_exponent := 3/2,
      over_penalty_scale := 3/10 }
  | .medium =>
    { target_mw := 50, noncompliance := 15/100, response_variability := 25/100,
      headroom_multiplier := 5/2, penalty_exponent := 2,
      over_penalty_scale := 5/10 }
  | .hard =>
    { target_mw := 300, noncompliance := 25/100, response_variability := 4/10,
      headroom_multiplier := 3/2, penalty_exponent := 3,
      over_penalty_scale := 7/10 }

/-- Per-asset-type dispatch intensity dial (0-100).  The source record always
carries all five keys, so it is modelled as a total function. -/
def DispatchIntensity : Type := AssetType → ℚ

/-- DEFAULT_DISPATCH_INTENSITY: every type at 50. -/
def DEFAULT_DISPATCH_INTENSITY : DispatchIntensity := fun _ => 50

-- ---------- DispatchStrategies: context and estimators ----------

structure StrategyContext where
  assets : List Asset
  targetKw : ℚ
  currentTimestep : ℕ
  totalTimesteps : ℕ
  config : ScenCfg
  strategyConfig : StrategyConfig
  dispatchIntensity : DispatchIntensity
  previousAchievedKw : Option ℚ
  previouslyDispatchedAssetIds : List String
  accumulatedError : ℚ
  assetPerformanceScores : List (String × ℚ)

/-- Map.get with the source's ?? 0.5 default. -/
def perfScore (scores : List (String × ℚ)) (aid : String) : ℚ :=
  (scores.lookup aid).getD (1/2)

/-- getAvailableCapacity (the timestep argument of the source is unused). -/
def getAvailableCapacity (jm : JsMath) (asset : Asset) : ℚ :=
  match asset with
  | .hvac a => if a.state.dropped then 0 else a.params.hvac_kw
  | .battery a =>
    if a.state.dropped then 0 else
    let availableSoc := a.state.soc - a.params.soc_reserve
    min a.params.p_dis_kw (availableSoc * a.params.e_kwh * 12)
  | .ev a =>
    if a.state.dropped ∨ a.state.override_active ∨ ¬a.state.plugged then 0
    else a.params.p_max_kw
  | .fleet a =>
    if a.state.dropped then 0 else a.params.u_site_max_kw * (7/10)
  | .ci a =>
    if a.state.dropped then 0 else
    let hvacAvail := a.params.smax_hvac_kw *
      jm.exp (-(a.params.fatigue_k * a.state.fatigue))
    let processAvail := if a.state.process_on then a.params.process_load_kw else 0
    hvacAvail + processAvail

/-- estimateDropRisk. -/
def estimateDropRisk (asset : Asset) (riskParams : RiskPostureParams) : ℚ :=
  let conservationFactor := riskParams.conservationFactor
  match asset with
  | .hvac a =>
    let isCooling := a.params.mode = HvacMode.cooling
    let tempMargin := if isCooling then a.params.comfort_max_f - a.state.tin_f
      else a.state.tin_f - a.params.comfort_min_f
    max 0 (min 1 ((1 - tempMargin / 4) * (1 - conservationFactor * (5/10))))
  | .battery a =>
    let socMargin := a.state.soc - a.params.soc_reserve
    max 0 (min 1 ((1 - socMargin) * (5/10)))
  | .ev a =>
    if a.state.override_active then 1
    else
      let energyNeeded := a.params.e_req_kwh - a.state.e_kwh
      if energyNeeded > 20 then 6/10 else if energyNeeded > 10 then 3/10
      else 1/10
  | .ci a => min 1 (a.state.fatigue * (8/10))
  | .fleet _ => 2/10

/-- calculateComfortCost. -/
def calculateComfortCost (asset : Asset) : ℚ :=
  match asset with
  | .hvac a =>
    let isCooling := a.params.mode = HvacMode.cooling
    let tempMargin := if isCooling then a.params.comfort_max_f - a.state.tin_f
      else a.state.tin_f - a.params.comfort_min_f
    max 0 (4 - tempMargin)
  | .ev a =>
    let chargeNeeded := a.params.e_req_kwh - a.state.e_kwh
    let timeRemaining : ℚ := (a.params.t_depart : ℚ) - (a.params.t_arrival : ℚ)
    chargeNeeded / max 1 timeRemaining
  | .ci a => a.state.fatigue * 2
  | _ => 1/2

/-- calculateHeadroom. -/
def calculateHeadroom (asset : Asset) : ℚ :=
  match asset with
  | .battery a => (a.state.soc - a.params.soc_reserve) * a.params.e_kwh
  | .ev a =>
    if ¬a.state.plugged then 0
    else a.state.e_kwh - a.params.e_req_kwh * (2/10)
  | .hvac a =>
    let isCooling := a.params.mode = HvacMode.cooling
    if isCooling then a.params.comfort_max_f - a.state.tin_f
    else a.state.tin_f - a.params.comfort_min_f
  | .ci a => (1 - a.state.fatigue) * a.params.smax_hvac_kw
  | .fleet a => a.params.u_site_max_kw * (5/10)

-- ---------- DispatchStrategies: ramp-up ----------

/-- calculateRampUpPercentage.  Math.pow(progress, 0.5) is jm.sqrt. -/
def calculateRampUpPercentage (jm : JsMath) (context : StrategyContext) : ℚ :=
  let riskParams := RISK_POSTURE_PARAMS context.strategyConfig.riskPosture
  let progress : ℚ := (context.currentTimestep : ℚ) / (context.totalTimesteps : ℚ)
  let initialPct := riskParams.rampUpSpeed
  if context.strategyConfig.riskPosture = RiskPosture.deadline_aware then
    let urgency := jm.sqrt progress
    min 1 (initialPct + (1 - initialPct) * urgency)
  else
    let riskPosture := context.strategyConfig.riskPosture
    let rampDuration : ℚ :=
      if riskPosture = RiskPosture.risk_averse then 7/10
      else if riskPosture = RiskPosture.opportunity_seeking then 4/10
      else 5/10
    let rampProgress := min 1 (progress / rampDuration)
    min 1 (initialPct + (1 - initialPct) * rampProgress)

-- ---------- DispatchStrategies: selection and ordering ----------

structure ScoredAsset where
  asset : Asset
  capacity : ℚ
  score : ℚ

/-- Digits-only integer value of an asset id: parseInt(id.replace(/\D/g,''), 10).
An id with no digits gives NaN in the source; modelled as 0 (no theorem
depends on that case). -/
def idDigitsVal (s : String) : ℕ :=
  (s.toList.filter Char.isDigit).foldl (fun n c => n * 10 + (c.toNat - 48)) 0

/-- The score contribution of one ordering criterion for one asset. -/
def orderingCaseScore (jm : JsMath) (asset : Asset)
    (ordering : SelectionOrdering) (context : StrategyContext) : ℚ :=
  let riskParams := RISK_POSTURE_PARAMS context.strategyConfig.riskPosture
  match ordering with
  | .batteries_first =>
    if asset.type = AssetType.battery_resi then 1 else 3/10
  | .hvac_first =>
    if asset.type = AssetType.hvac_resi then 1 else 3/10
  | .high_load_reduction_first =>
    if asset.type = AssetType.ev_resi ∨ asset.type = AssetType.fleet_site then 1
    else 3/10
  | .balanced_weighting => 1/2
  | .highest_trust_score => perfScore context.assetPerformanceScores asset.id
  | .lowest_variance => 1 - estimateDropRisk asset riskParams
  | .best_historical_delivery => perfScore context.assetPerformanceScores asset.id
  | .highest_headroom =>
    let headroom := calculateHeadroom asset
    let capacity := getAvailableCapacity jm asset
    if capacity > 0 then min 1 (headroom / capacity) else 0
  | .lowest_marginal_comfort_cost =>
    1 - min 1 (calculateComfortCost asset / 5)
  | .highest_soc_buffer =>
    match asset with
    | .battery a => a.state.soc
    | .ev a =>
      if a.state.plugged then a.state.e_kwh / a.params.e_capacity_kwh else 1/2
    | _ => 1/2
  | .least_recently_dispatched =>
    if context.previouslyDispatchedAssetIds.contains asset.id then 2/10
    else 8/10
  | .round_robin => ((idDigitsVal asset.id % 100 : ℕ) : ℚ) / 100
  | .fatigue_balanced =>
    match asset with
    | .ci a => 1 - a.state.fatigue
    | _ => 8/10

/-- The weighted accumulation of calculateOrderingScore: total score and
weight sum, with weight 1/(index+1) per ordering. -/
def orderingScoreParts (jm : JsMath) (asset : Asset)
    (orderings : List SelectionOrdering) (context : StrategyContext) : ℚ × ℚ :=
  orderings.enum.foldl (fun acc iord =>
    let weight : ℚ := 1 / ((iord.1 : ℚ) + 1)
    (acc.1 + orderingCaseScore jm asset iord.2 context * weight,
     acc.2 + weight)) (0, 0)

/-- calculateOrderingScore: normalized weighted score times the intensity
multiplier.  With an empty orderings list the source divides 0 by 0 and the
score is NaN; the rational division-by-zero convention yields 0 here. -/
def calculateOrderingScore (jm : JsMath) (asset : Asset)
    (orderings : List SelectionOrdering) (context : StrategyContext) : ℚ :=
  let intensity := context.dispatchIntensity asset.type / 100
  let intensityMultiplier := 1/2 + intensity
  let parts := orderingScoreParts jm asset orderings context
  parts.1 / parts.2 * intensityMultiplier

/-- Stable insertion into a sorted list: the new element goes before the first
element it does not le-follow, so equal keys keep their original order. -/
def insertLe (le : α → α → Bool) (x : α) : List α → List α
  | [] => [x]
  | y :: ys => if le x y then x :: y :: ys else y :: insertLe le x ys

/-- Stable sort (the result Array.prototype.sort guarantees for a consistent
comparator). -/
def jsSortBy (le : α → α → Bool) : List α → List α
  | [] => []
  | x :: xs => insertLe le x (jsSortBy le xs)

/-- selectAndOrderAssets. -/
def selectAndOrderAssets (jm : JsMath) (context : StrategyContext) :
    List ScoredAsset :=
  let rampPercentage := calculateRampUpPercentage jm context
  let scoredAssets :=
    ((context.assets.filter (fun a => ¬a.droppedFlag)).map (fun a =>
      { asset := a
        capacity := getAvailableCapacity jm a
        score := calculateOrderingScore jm a
          context.strategyConfig.selectionOrderings context : ScoredAsset }))
      |>.filter (fun sa => sa.capacity > 0)
  let scoredAssets := jsSortBy (fun a b => b.score ≤ a.score) scoredAssets
  let previouslyDispatched := scoredAssets.filter (fun sa =>
    context.previouslyDispatchedAssetIds.contains sa.asset.id)
  let notPreviouslyDispatched := scoredAssets.filter (fun sa =>
    ¬context.previouslyDispatchedAssetIds.contains sa.asset.id)
  let targetCount : ℤ :=
    max 1 ⌈(scoredAssets.length : ℚ) * rampPercentage⌉
  previouslyDispatched ++
    notPreviouslyDispatched.take
      (max 0 (targetCount - previouslyDispatched.length)).toNat

-- ---------- DispatchStrategies: objective-based target adjustment ----------

/-- adjustTargetForObjective. -/
def adjustTargetForObjective (jm : JsMath) (context : StrategyContext)
    (baseTarget : ℚ) : ℚ :=
  let riskParams := RISK_POSTURE_PARAMS context.strategyConfig.riskPosture
  match context.strategyConfig.objective with
  | .capacity => baseTarget * (1 + riskParams.reserveMargin * (5/10))
  | .risk_minimization => baseTarget * (1 + riskParams.reserveMargin)
  | .efficiency => baseTarget
  | .regret_minimization => baseTarget * (1 + riskParams.reserveMargin * (3/2))
  | .learning_oriented =>
    let variance := jm.sin ((context.currentTimestep : ℚ) * (5/10)) * (1/10)
    baseTarget * (1 + variance)

-- ---------- DispatchStrategies: command synthesis ----------

/-- createDispatchCommand (intensity defaults to 50 at the one call site that
omits it). -/
def createDispatchCommand (jm : JsMath) (asset : Asset) (targetKw : ℚ)
    (riskParams : RiskPostureParams) (intensity : ℚ) :
    Option DispatchCommand :=
  let intensityFactor := intensity / 100
  let conservationFactor := riskParams.conservationFactor * (3/2 - intensityFactor)
  match asset with
  | .battery bat =>
    let effectiveReserve := bat.params.soc_reserve * (1 + conservationFactor * (3/10))
    let availSoc := bat.state.soc - effectiveReserve
    let maxPower := min bat.params.p_dis_kw (availSoc * bat.params.e_kwh * 12)
    let power := min targetKw maxPower
    some { asset_id := bat.id, command := .battery (max 0 power) }
  | .hvac hvac =>
    let maxShift := (1 + intensityFactor * 2) * (1 - conservationFactor * (3/10))
    let shift :=
      if hvac.params.mode = HvacMode.cooling then
        min maxShift (targetKw / hvac.params.hvac_kw * 2)
      else -(min maxShift (targetKw / hvac.params.hvac_kw * 2))
    some { asset_id := hvac.id, command := .hvac (jround shift) }
  | .ev ev =>
    if ¬ev.state.plugged ∨ ev.state.override_active then none
    else
      let maxReduction := ev.params.p_max_kw * (5/10 + intensityFactor * (5/10))
      let reduction := min maxReduction targetKw
      let newChargeRate := ev.params.p_max_kw - reduction
      some { asset_id := ev.id, command := .ev (max 0 newChargeRate) }
  | .fleet fleet =>
    let maxReduction := fleet.params.u_site_max_kw * (4/10 + intensityFactor * (4/10))
    let reduction := min maxReduction targetKw
    let capPower := fleet.params.u_site_max_kw - reduction
    some { asset_id := fleet.id, command := .fleet (max 0 capPower) }
  | .ci ci =>
    let availableHvac := ci.params.smax_hvac_kw *
      jm.exp (-(ci.params.fatigue_k * ci.state.fatigue))
    let shedAmount := min availableHvac targetKw * (1 - conservationFactor * (3/10))
    let remainingForProcess := targetKw - shedAmount
    let curtailProcess :=
      remainingForProcess > 0 ∧ ci.state.process_on ∧ intensityFactor > 4/10
    some { asset_id := ci.id
           command := .ci shedAmount (¬curtailProcess) }

/-- getCommandContribution.  The casts in the source always see the matching
variant, because the command was just built by createDispatchCommand; the
getD defaults are therefore never exercised. -/
def getCommandContribution (asset : Asset) (command : DispatchCommand) : ℚ :=
  match asset with
  | .battery _ => (command.command.read_power_kw).getD 0
  | .hvac hvac =>
    let shift := |(command.command.read_delta_setpoint_f).getD 0|
    hvac.params.hvac_kw * shift / 2
  | .ev ev =>
    let chargeRate := (command.command.read_power_kw).getD 0
    ev.params.p_max_kw - chargeRate
  | .fleet fleet =>
    let cap := (command.command.read_site_power_cap_kw).getD 0
    fleet.params.u_site_max_kw - cap
  | .ci ci =>
    let shed := (command.command.read_hvac_shed_kw).getD 0
    let processOn := (command.command.read_process_on).getD true
    if ¬processOn ∧ ci.state.process_on then shed + ci.params.process_load_kw
    else shed

/-- The loop body of dispatchToTarget: walk the ranked assets, stopping once
the remaining target is ≤ 0. -/
def dispatchLoop (jm : JsMath) (context : StrategyContext)
    (riskParams : RiskPostureParams) :
    List ScoredAsset → ℚ → List DispatchCommand
  | [], _ => []
  | sa :: rest, remainingTarget =>
    if remainingTarget ≤ 0 then [] else
    let intensity := context.dispatchIntensity sa.asset.type
    let capacityMultiplier := 1/2 + intensity / 100 * (1/2)
    let effectiveCapacity := sa.capacity * capacityMultiplier
    let dispatchAmount := min effectiveCapacity remainingTarget
    match createDispatchCommand jm sa.asset dispatchAmount riskParams intensity with
    | some command =>
      command :: dispatchLoop jm context riskParams rest
        (remainingTarget - getCommandContribution sa.asset command)
    | none => dispatchLoop jm context riskParams rest remainingTarget

/-- dispatchToTarget. -/
def dispatchToTarget (jm : JsMath) (assets : List ScoredAsset) (targetKw : ℚ)
    (context : StrategyContext) (riskParams : RiskPostureParams) :
    List DispatchCommand :=
  dispatchLoop jm context riskParams assets targetKw

/-- maintainPreviousDispatch: re-dispatch previously dispatched assets at
half their available capacity (intensity argument defaulted to 50). -/
def maintainPreviousDispatch (jm : JsMath) (context : StrategyContext)
    (assets : List ScoredAsset) : List DispatchCommand :=
  let riskParams := RISK_POSTURE_PARAMS context.strategyConfig.riskPosture
  assets.foldr (fun sa acc =>
    if context.previouslyDispatchedAssetIds.contains sa.asset.id then
      let capacity := getAvailableCapacity jm sa.asset
      match createDispatchCommand jm sa.asset (capacity * (1/2)) riskParams 50 with
      | some command => command :: acc
      | none => acc
    else acc) []

-- ---------- DispatchStrategies: decision frameworks ----------

/-- deterministicDispatch. -/
def deterministicDispatch (jm : JsMath) (context : StrategyContext) :
    List DispatchCommand :=
  let subtype := context.strategyConfig.frameworkSubtype
  let selectedAssets := selectAndOrderAssets jm context
  let riskParams := RISK_POSTURE_PARAMS context.strategyConfig.riskPosture
  let effectiveTarget := adjustTargetForObjective jm context context.targetKw
  let effectiveTarget :=
    if subtype = FrameworkSubtype.state_machine then
      let progress : ℚ := (context.currentTimestep : ℚ) / (context.totalTimesteps : ℚ)
      if progress < 15/100 then effectiveTarget * (7/10)
      else if progress > 85/100 then
        effectiveTarget * (8/10 + 2/10 * (1 - progress) / (15/100))
      else effectiveTarget
    else effectiveTarget
  if subtype = FrameworkSubtype.threshold_triggered then
    match context.previousAchievedKw with
    | some prev =>
      let deviation := context.targetKw - prev
      if deviation < context.targetKw * (5/100) then
        maintainPreviousDispatch jm context selectedAssets
      else dispatchToTarget jm selectedAssets effectiveTarget context riskParams
    | none => dispatchToTarget jm selectedAssets effectiveTarget context riskParams
  else dispatchToTarget jm selectedAssets effectiveTarget context riskParams

/-- greedyDispatch. -/
def greedyDispatch (jm : JsMath) (context : StrategyContext) :
    List DispatchCommand :=
  let subtype := context.strategyConfig.frameworkSubtype
  let riskParams := RISK_POSTURE_PARAMS context.strategyConfig.riskPosture
  let selectedAssets := selectAndOrderAssets jm context
  let selectedAssets :=
    if subtype = FrameworkSubtype.max_capacity_now then
      jsSortBy (fun a b => b.capacity ≤ a.capacity) selectedAssets
    else if subtype = FrameworkSubtype.min_risk_now then
      jsSortBy (fun a b =>
        estimateDropRisk a.asset riskParams ≤ estimateDropRisk b.asset riskParams)
        selectedAssets
    else if subtype = FrameworkSubtype.best_efficiency_now then
      jsSortBy (fun a b =>
        b.capacity / max (1/10) (calculateComfortCost b.asset) ≤
          a.capacity / max (1/10) (calculateComfortCost a.asset))
        selectedAssets
    else selectedAssets
  let effectiveTarget := adjustTargetForObjective jm context context.targetKw
  dispatchToTarget jm selectedAssets effectiveTarget context riskParams

/-- The inner sampling loop of the expected_value subtype: numSamples *
lookaheadSteps noncompliance draws, counting successes. -/
def evSampleLoop (p : ℚ) (n : ℕ) (r : Rng) : ℕ × Rng :=
  match n with
  | 0 => (0, r)
  | n + 1 =>
    let (u, r') := r.next
    let (c, r'') := evSampleLoop p n r'
    ((if u < p then 1 else 0) + c, r'')

/-- One monte_carlo_weighted sample: sum the capacities of the assets whose
draw exceeds the noncompliance probability. -/
def mcSample (p : ℚ) (assets : List ScoredAsset) (r : Rng) : ℚ × Rng :=
  match assets with
  | [] => (0, r)
  | sa :: rest =>
    let (u, r') := r.next
    let (s, r'') := mcSample p rest r'
    ((if u > p then sa.capacity else 0) + s, r'')

/-- The ten monte_carlo_weighted samples. -/
def mcSamples (p : ℚ) (assets : List ScoredAsset) (n : ℕ) (r : Rng) :
    List ℚ × Rng :=
  match n with
  | 0 => ([], r)
  | n + 1 =>
    let (x, r') := mcSample p assets r
    let (xs, r'') := mcSamples p assets n r'
    (x :: xs, r'')

/-- stochasticDispatch (the only framework that consumes random draws). -/
def stochasticDispatch (jm : JsMath) (context : StrategyContext) (r : Rng) :
    List DispatchCommand × Rng :=
  let subtype := context.strategyConfig.frameworkSubtype
  let riskParams := RISK_POSTURE_PARAMS context.strategyConfig.riskPosture
  let selectedAssets := selectAndOrderAssets jm context
  let numSamples : ℕ := 10
  let lookaheadSteps : ℕ :=
    min 6 (context.totalTimesteps - context.currentTimestep)
  let mr : ℚ × Rng :=
    if subtype = FrameworkSubtype.expected_value then
      let (count, r') := evSampleLoop context.config.noncompliance.probability
        (numSamples * lookaheadSteps) r
      let expectedDropoffs := (count : ℚ) / (numSamples : ℚ)
      -- Division by selectedAssets.length: 0 assets gives NaN in the source
      -- and 0 here; in both cases the resulting command list is empty.
      (1 + expectedDropoffs / (selectedAssets.length : ℚ) * (5/10), r')
    else if subtype = FrameworkSubtype.chance_constrained then
      (1 + riskParams.reserveMargin * (3/2), r)
    else if subtype = FrameworkSubtype.monte_carlo_weighted then
      let (outcomes, r') := mcSamples context.config.noncompliance.probability
        selectedAssets numSamples r
      let outcomes := jsSortBy (fun a b => a ≤ b) outcomes
      let medianCapacity := outcomes.getD (outcomes.length / 2) 0
      if medianCapacity > 0 then (context.targetKw / medianCapacity, r')
      else (1, r')
    else (1, r)
  let targetMultiplier := mr.1
  let r1 := mr.2
  let effectiveTarget :=
    adjustTargetForObjective jm context context.targetKw * targetMultiplier
  (dispatchToTarget jm selectedAssets effectiveTarget context riskParams, r1)

/-- feedbackControlDispatch. -/
def feedbackControlDispatch (jm : JsMath) (context : StrategyContext) :
    List DispatchCommand :=
  let subtype := context.strategyConfig.frameworkSubtype
  let riskParams := RISK_POSTURE_PARAMS context.strategyConfig.riskPosture
  let selectedAssets := selectAndOrderAssets jm context
  let effectiveTarget := adjustTargetForObjective jm context context.targetKw
  let effectiveTarget :=
    match context.previousAchievedKw with
    | some prev =>
      let error := context.targetKw - prev
      if subtype = FrameworkSubtype.error_correction then
        context.targetKw + error * (3/2)
      else if subtype = FrameworkSubtype.adaptive_weighting then
        context.targetKw + error
      else if subtype = FrameworkSubtype.pid_like_control then
        let kp : ℚ := 12/10
        let ki : ℚ := 1/10
        let kd : ℚ := 3/10
        let integral := context.accumulatedError + error
        -- error - (targetKw - prev) is identically 0 in the source.
        let derivative := error - (context.targetKw - prev)
        context.targetKw + (kp * error + ki * integral + kd * derivative)
      else effectiveTarget
    | none => effectiveTarget
  let effectiveTarget := max 0 (min effectiveTarget (context.targetKw * 2))
  dispatchToTarget jm selectedAssets effectiveTarget context riskParams

/-- executeComposableStrategy: dispatch on the decision framework.  Only the
stochastic framework consumes random draws. -/
def executeComposableStrategy (jm : JsMath) (context : StrategyContext)
    (r : Rng) : List DispatchCommand × Rng :=
  match context.strategyConfig.decisionFramework with
  | .deterministic_policy => (deterministicDispatch jm context, r)
  | .greedy_myopic => (greedyDispatch jm context, r)
  | .stochastic => stochasticDispatch jm context r
  | .feedback_control => (feedbackControlDispatch jm context, r)

-- ---------- SimulationEngine: records ----------

/-- Per-asset-type counters (Record<AssetType, number>). -/
structure ByType where
  hvac_resi : ℕ
  battery_resi : ℕ
  ev_resi : ℕ
  fleet_site : ℕ
  ci_building : ℕ
deriving Repr, DecidableEq

def ByType.zero : ByType := ⟨0, 0, 0, 0, 0⟩

def ByType.inc (b : ByType) : AssetType → ByType
  | .hvac_resi => { b with hvac_resi := b.hvac_resi + 1 }
  | .battery_resi => { b with battery_resi := b.battery_resi + 1 }
  | .ev_resi => { b with ev_resi := b.ev_resi + 1 }
  | .fleet_site => { b with fleet_site := b.fleet_site + 1 }
  | .ci_building => { b with ci_building := b.ci_building + 1 }

/-- TimestepResult.  The formatted time string is represented by the
minutes-of-day it displays (start hour * 60 + timestep * 5); the recorded
penalty is a real because of the non-integer difficulty exponent. -/
structure TimestepResult where
  timestep : ℕ
  time_min : ℕ
  target_kw : ℚ
  achieved_kw : ℚ
  shortfall_kw : ℚ
  penalty : ℝ
  assets_dropped : ℕ
  outdoor_temp_f : ℚ
  dispatches_by_type : ByType
  new_dispatch_calls : ByType

/-- The Scenario input: configuration plus initial assets.  The source field
named like the structure is called cfg here. -/
structure Scen where
  cfg : ScenCfg
  assets : List Asset

/-- SimulationState. -/
structure SimState where
  scen : Scen
  current_timestep : ℕ
  assets : List Asset
  history : List TimestepResult
  total_penalty : ℝ
  is_running : Bool
  is_complete : Bool

/-- The SimulationEngine instance fields (the UI-timing fields
speedMultiplier, lastUpdateTime and the two callbacks are not part of the
simulation semantics and are omitted). -/
structure Engine where
  st : SimState
  strategyConfig : StrategyConfig
  difficulty : DifficultyLevel
  dispatchIntensity : DispatchIntensity
  previouslyDispatchedAssets : List String
  accumulatedError : ℚ
  assetPerformanceScores : List (String × ℚ)

/-- The constructor: clone assets, initialize every performance score to 0.5,
zero all feedback memory. -/
def initEngine (scen : Scen) (strategyConfig : StrategyConfig)
    (difficulty : DifficultyLevel) (di : DispatchIntensity) : Engine :=
  { st :=
      { scen := scen
        current_timestep := 0
        assets := scen.assets
        history := []
        total_penalty := 0
        is_running := false
        is_complete := false }
    strategyConfig := strategyConfig
    difficulty := difficulty
    dispatchIntensity := di
    previouslyDispatchedAssets := []
    accumulatedError := 0
    assetPerformanceScores := scen.assets.map (fun a => (a.id, 1/2)) }

/-- reset(): re-clone the scenario assets and zero all feedback memory,
keeping the configuration. -/
def resetEngine (e : Engine) : Engine :=
  initEngine e.st.scen e.strategyConfig e.difficulty e.dispatchIntensity

/-- JS Map get: the value of the last set for the key (insertion overwrite). -/
def jsMapGet (commands : List DispatchCommand) (aid : String) :
    Option DispatchCommand :=
  commands.foldl (fun acc c => if c.asset_id = aid then some c else acc) none

/-- JS Map get for the asset map keyed by id. -/
def assetMapGet (assets : List Asset) (aid : String) : Option Asset :=
  assets.foldl (fun acc a => if a.id = aid then some a else acc) none

/-- JS Map set with ?? default handled by the caller: overwrite in place if
the key exists, append otherwise. -/
def scoreMapSet (m : List (String × ℚ)) (k : String) (v : ℚ) :
    List (String × ℚ) :=
  if (m.lookup k).isSome then
    m.map (fun p => if p.1 = k then (k, v) else p)
  else m ++ [(k, v)]

/-- Math.pow over the reals (the penalty exponent may be non-integer); the
power is Real.rpow. -/
noncomputable def jsPow (x y : ℝ) : ℝ := x ^ y

/-- Math.round over the reals. -/
noncomputable def jroundR (x : ℝ) : ℝ := (⌊x + 1/2⌋ : ℤ)

/-- The anti-windup update of the accumulated error performed at the start of
advanceTimestep: integrate the previous tick error, clamped to ±5 * target. -/
def nextAccumulatedError (targetKw : ℚ) (previousAchievedKw : Option ℚ)
    (acc : ℚ) : ℚ :=
  match previousAchievedKw with
  | some prev =>
    let error := targetKw - prev
    max (-(targetKw * 5)) (min (targetKw * 5) (acc + error))
  | none => acc

/-- The StrategyContext that advanceTimestep hands to the dispatch engine at
the current tick (after the accumulated-error update). -/
def tickContext (e : Engine) : StrategyContext :=
  let config := e.st.scen.cfg
  let timestep := e.st.current_timestep
  let targetKw := (config.objective.target_kw).getD 0
  let previousAchievedKw := (e.st.history.getLast?).map
    (fun tr => tr.achieved_kw)
  { assets := e.st.assets
    targetKw := targetKw
    currentTimestep := timestep
    totalTimesteps := config.timesteps
    config := config
    strategyConfig := e.strategyConfig
    dispatchIntensity := e.dispatchIntensity
    previousAchievedKw := previousAchievedKw
    previouslyDispatchedAssetIds := e.previouslyDispatchedAssets
    accumulatedError := nextAccumulatedError targetKw previousAchievedKw
      e.accumulatedError
    assetPerformanceScores := e.assetPerformanceScores }

/-- The per-asset update loop of advanceTimestep: update each asset in order,
scale each power delta by an independent response-variability draw, and
accumulate achieved kW. -/
def assetLoop (jm : JsMath) (commands : List DispatchCommand)
    (timestep : ℕ) (outdoorTemp : ℚ) (startHour : ℕ) (config : ScenCfg)
    (variability : ℚ) (assets : List Asset) (r : Rng) :
    List Asset × ℚ × Rng :=
  match assets with
  | [] => ([], 0, r)
  | asset :: rest =>
    let cmd := jsMapGet commands asset.id
    let (asset', delta, r1) := updateAsset jm asset
      (cmd.map (fun c => c.command)) timestep outdoorTemp startHour config r
    let (u, r2) := r1.next
    let variabilityFactor := 1 + (u * 2 - 1) * variability
    let (rest', achieved, r3) := assetLoop jm commands timestep outdoorTemp
      startHour config variability rest r2
    (asset' :: rest', delta * variabilityFactor + achieved, r3)

/-- The trust-score update of advanceTimestep: dispatched assets gain 0.02 if
they performed, lose 0.1 if they dropped. -/
def updateScores (dispatched : List String) (assets : List Asset)
    (scores : List (String × ℚ)) : List (String × ℚ) :=
  assets.foldl (fun sc asset =>
    let currentScore := (sc.lookup asset.id).getD (1/2)
    if dispatched.contains asset.id then
      if asset.droppedFlag then
        scoreMapSet sc asset.id (max 0 (currentScore - 1/10))
      else
        scoreMapSet sc asset.id (min 1 (currentScore + 2/100))
    else sc) scores

/-- advanceTimestep. -/
noncomputable def advanceTimestep (jm : JsMath) (e : Engine) (r : Rng) :
    Engine × Rng :=
  let config := e.st.scen.cfg
  let timestep := e.st.current_timestep
  if timestep ≥ config.timesteps then
    ({ e with st := { e.st with is_complete := true, is_running := false } }, r)
  else
  let targetKw := (config.objective.target_kw).getD 0
  let outdoorTemp := (config.weather.outdoor_temp_f.get? timestep).getD 75
  let startHour := config.start_hour
  let cr := executeComposableStrategy jm (tickContext e) r
  let commands := cr.1
  let r1 := cr.2
  let dispatchesByType := commands.foldl (fun (b : ByType) cmd =>
    match assetMapGet e.st.assets cmd.asset_id with
    | some asset => b.inc asset.type
    | none => b) ByType.zero
  let newDispatchCalls := commands.foldl (fun (b : ByType) cmd =>
    match assetMapGet e.st.assets cmd.asset_id with
    | some asset =>
      if ¬e.previouslyDispatchedAssets.contains cmd.asset_id then
        b.inc asset.type
      else b
    | none => b) ByType.zero
  let currentlyDispatchedAssets := commands.map (fun c => c.asset_id)
  let difficultySettings := DIFFICULTY_PRESETS e.difficulty
  let ual := assetLoop jm commands timestep
    outdoorTemp startHour config difficultySettings.response_variability
    e.st.assets r1
  let updatedAssets := ual.1
  let achievedKw := ual.2.1
  let r2 := ual.2.2
  let scores1 := updateScores currentlyDispatchedAssets updatedAssets
    e.assetPerformanceScores
  -- Asymmetric penalty: under-performance at full rate, over-performance
  -- scaled down by the difficulty preset.
  let penaltyExponent := difficultySettings.penalty_exponent
  let shortfall := max 0 (targetKw - achievedKw)
  let deviation := |targetKw - achievedKw|
  let isOverPerformance := achievedKw > targetKw
  let overScale := difficultySettings.over_penalty_scale
  let epsilon : ℚ := 1/1000
  let normalizedDeviation := deviation / (targetKw + epsilon)
  let basePenalty : ℝ := jsPow ((normalizedDeviation : ℚ) : ℝ)
    ((penaltyExponent : ℚ) : ℝ)
  let penalty : ℝ :=
    if isOverPerformance then basePenalty * ((overScale : ℚ) : ℝ)
    else basePenalty
  let droppedCount := (updatedAssets.filter (fun a => a.droppedFlag)).length
  let result : TimestepResult :=
    { timestep := timestep
      time_min := startHour * 60 + timestep * 5
      target_kw := targetKw
      achieved_kw := round1 achievedKw
      shortfall_kw := round1 shortfall
      penalty := jroundR (penalty * 10000) / 10000
      assets_dropped := droppedCount
      outdoor_temp_f := round1 outdoorTemp
      dispatches_by_type := dispatchesByType
      new_dispatch_calls := newDispatchCalls }
  ({ e with
      st :=
        { scen := e.st.scen
          current_timestep := timestep + 1
          assets := updatedAssets
          history := e.st.history ++ [result]
          total_penalty := e.st.total_penalty + penalty
          is_running := e.st.is_running
          is_complete := e.st.is_complete }
      previouslyDispatchedAssets := currentlyDispatchedAssets
      accumulatedError := nextAccumulatedError targetKw
        ((e.st.history.getLast?).map (fun tr => tr.achieved_kw))
        e.accumulatedError
      assetPerformanceScores := scores1 }, r2)

/-- n successive ticks (the run loop / repeated step()). -/
noncomputable def runN (jm : JsMath) : ℕ → Engine → Rng → Engine × Rng
  | 0, e, r => (e, r)
  | n + 1, e, r =>
    let er := advanceTimestep jm e r
    runN jm n er.1 er.2

-- ---------- Claim-side observables ----------

/-- The target the current tick resolves (objective.target_kw ?? 0). -/
def tickTarget (e : Engine) : ℚ := (e.st.scen.cfg.objective.target_kw).getD 0

/-- The achieved kW that advanceTimestep aggregates at the current tick:
the asset-loop total over the commands of this tick. -/
def tickAchieved (jm : JsMath) (e : Engine) (r : Rng) : ℚ :=
  let config := e.st.scen.cfg
  let timestep := e.st.current_timestep
  let outdoorTemp := (config.weather.outdoor_temp_f.get? timestep).getD 75
  let startHour := config.start_hour
  let cr := executeComposableStrategy jm (tickContext e) r
  let ual := assetLoop jm cr.1 timestep
    outdoorTemp startHour config
    (DIFFICULTY_PRESETS e.difficulty).response_variability e.st.assets cr.2
  ual.2.1

/-- The command list the dispatch engine emits at the current tick. -/
def commandsAt (jm : JsMath) (e : Engine) (r : Rng) : List DispatchCommand :=
  (executeComposableStrategy jm (tickContext e) r).1

/-- The penalty of one tick in the form the specification states it:
(|target − achieved| / (target + 0.001)) ^ penalty_exponent, scaled by the
over-performance factor exactly when achieved exceeds target. -/
noncomputable def penaltyFormula (d : DifficultyLevel)
    (targetKw achievedKw : ℚ) : ℝ :=
  jsPow ((|targetKw - achievedKw| / (targetKw + 1/1000) : ℚ) : ℝ)
      (((DIFFICULTY_PRESETS d).penalty_exponent : ℚ) : ℝ) *
    (if targetKw < achievedKw then
      (((DIFFICULTY_PRESETS d).over_penalty_scale : ℚ) : ℝ)
    else 1)

/-- Iterated EV updates from a start tick, one command and the shared
generator per tick (the per-asset view of successive engine ticks). -/
def evRun (config : ScenCfg) : ℕ → EvResi → List (Option AssetCommand) →
    Rng → EvResi × Rng
  | _, a, [], r => (a, r)
  | t, a, c :: cs, r =>
    let x := updateEvResi a c t config r
    evRun config (t + 1) x.1 cs x.2.2

/-- Iterated C&I updates from a start tick. -/
def ciRun (jm : JsMath) (config : ScenCfg) (startHour : ℕ) :
    ℕ → CiBuilding → List (Option AssetCommand) → Rng → CiBuilding × Rng
  | _, a, [], r => (a, r)
  | t, a, c :: cs, r =>
    let x := updateCiBuilding jm a c t startHour config r
    ciRun jm config startHour (t + 1) x.1 cs x.2.2

-- ---------- Concrete fixtures for witnesses and counterexamples ----------

/-- A stand-in for the transcendental library functions; no concrete
evaluation below reaches a code path that calls them. -/
def jm0 : JsMath := { exp := fun _ => 1, sin := fun _ => 0, sqrt := fun _ => 0 }

/-- A draw stream sitting at 1/2 (a generic random() value). -/
def sigma0 : ℕ → ℚ := fun _ => 1/2

def rng0 : Rng := { stream := sigma0, pos := 0 }

/-- The stream for the reset-replay experiment: the first four draws (those
the original run consumes) are 1/2, every later draw is 0. -/
def sigma2 : ℕ → ℚ := fun i => if i < 4 then 1/2 else 0

def bat0 : BatteryResi :=
  { id := "b1"
    params := { e_kwh := 12, p_dis_kw := 4, p_ch_kw := 4, soc_reserve := 1/5 }
    state := { soc := 1, dropped := false, baseline_bias := 0,
               baseline_drift := 0 } }

/-- A one-tick scenario configuration with a 3 kW target and a quiet noise
model (zero drift and zero measurement noise, 15% noncompliance). -/
def cfgB : ScenCfg :=
  { start_hour := 14
    timesteps := 1
    weather := { outdoor_temp_f := [90] }
    objective := { target_kw := some 3, target_mwh := none, peak_cap_kw := none }
    baseline_error := { sigma_bias := 0, sigma_drift := 0, rho := 8/10 }
    measurement_noise := { pct_uniform := 5/100 }
    noncompliance := { probability := 15/100 } }

def scenB : Scen := { cfg := cfgB, assets := [Asset.battery bat0] }

/-- The original run of the reset-replay experiment: one simulated tick plus
the completing call, exactly as start() drives them. -/
noncomputable def cxRunOriginal : Engine × Rng :=
  runN jm0 2 (initEngine scenB DEFAULT_STRATEGY_CONFIG DifficultyLevel.medium
    DEFAULT_DISPATCH_INTENSITY) { stream := sigma2, pos := 0 }

/-- The replay: reset() and run again.  The global generator is not reset, so
the replay consumes the draws after those of the original run. -/
noncomputable def cxRunReplay : Engine × Rng :=
  runN jm0 2 (resetEngine cxRunOriginal.1) cxRunOriginal.2

/-- An HVAC asset whose thermostat keeps the unit off (indoor below the
cooling band), so its no-command power delta is its full baseline draw. -/
def hvacZ : HvacResi :=
  { id := "h1"
    params := { mode := HvacMode.cooling, pref_setpoint_f := 74,
                comfort_max_f := 78, comfort_min_f := 66, alpha := 0,
                beta := 1/2, hvac_kw := 3, deadband_f := 1/2 }
    state := { tin_f := 70, hvac_on := false, setpoint_f := some 74,
               dropped := false, baseline_bias := 0, baseline_drift := 0 } }

/-- A zero-target scenario around hvacZ. -/
def cfgZ : ScenCfg :=
  { start_hour := 14
    timesteps := 1
    weather := { outdoor_temp_f := [90] }
    objective := { target_kw := some 0, target_mwh := none, peak_cap_kw := none }
    baseline_error := { sigma_bias := 0, sigma_drift := 0, rho := 8/10 }
    measurement_noise := { pct_uniform := 0 }
    noncompliance := { probability := 0 } }

def scenZ : Scen := { cfg := cfgZ, assets := [Asset.hvac hvacZ] }

noncomputable def engineZ : Engine :=
  initEngine scenZ DEFAULT_STRATEGY_CONFIG DifficultyLevel.medium
    DEFAULT_DISPATCH_INTENSITY

/-- An invalid strategy configuration: a feedback subtype attached to the
greedy framework, and an empty selection-orderings list. -/
def badStrategyConfig : StrategyConfig :=
  { decisionFramework := DecisionFramework.greedy_myopic
    frameworkSubtype := FrameworkSubtype.error_correction
    objective := ObjectiveFunction.capacity
    selectionOrderings := []
    riskPosture := RiskPosture.neutral
    feedbackMode := FeedbackMode.closed_loop }

noncomputable def engineBad : Engine :=
  initEngine scenB badStrategyConfig DifficultyLevel.medium
    DEFAULT_DISPATCH_INTENSITY

/-- An EV that has not arrived yet (arrival at tick 5) but already satisfies
the specification's deadline inequality at tick 0. -/
def evCx : EvResi :=
  { id := "e1"
    params := { p_max_kw := 1, e_req_kwh := 10, e_capacity_kwh := 20,
                t_arrival := 5, t_depart := 6 }
    state := { e_kwh := 0, plugged := false, dropped := false,
               override_active := false, baseline_bias := 0,
               baseline_drift := 0 } }

/-- A plugged EV under deadline pressure (witness input). -/
def evW : EvResi :=
  { id := "e2"
    params := { p_max_kw := 2, e_req_kwh := 10, e_capacity_kwh := 20,
                t_arrival := 0, t_depart := 4 }
    state := { e_kwh := 1, plugged := true, dropped := false,
               override_active := false, baseline_bias := 0,
               baseline_drift := 0 } }

/-- A C&I building fixture (witness input). -/
def ciW : CiBuilding :=
  { id := "c1"
    params := { smax_hvac_kw := 100, fatigue_k := 1/10, fatigue_a := 6/10,
                fatigue_b := 2/10, process_load_kw := 40,
                max_process_toggles := 2,
                business_hours := { start_hour := 8, end_hour := 18 } }
    state := { fatigue := 0, hvac_shed_kw := 0, process_on := true,
               process_toggles_used := 0, dropped := false,
               baseline_bias := 0, baseline_drift := 0 } }

/-- The cooling HVAC fixture for the command-synthesis bound. -/
def hvacCx : HvacResi :=
  { id := "h2"
    params := { mode := HvacMode.cooling, pref_setpoint_f := 74,
                comfort_max_f := 78, comfort_min_f := 66, alpha := 1/20,
                beta := 1/2, hvac_kw := 2, deadband_f := 1/2 }
    state := { tin_f := 74, hvac_on := true, setpoint_f := some 74,
               dropped := false, baseline_bias := 0, baseline_drift := 0 } }

-- ---------- Shared helper lemmas ----------

theorem ceil_as_floor (a : ℚ) : ⌈a⌉ = -⌊-a⌋ := by
  simp [Int.floor_neg]

theorem timestep_hours_pos : (0 : ℚ) < TIMESTEP_HOURS := by
  norm_num [TIMESTEP_HOURS]

/-- Discharging moves the SOC down by at most the energy above reserve. -/
theorem soc_discharge_bounds (soc res e p pdis : ℚ) (he : 0 < e)
    (h1 : res ≤ soc) (h2 : soc ≤ 1) (hp : 0 < p) :
    res ≤ soc - min p (max 0 (min pdis ((soc - res) * e / TIMESTEP_HOURS))) *
        TIMESTEP_HOURS / e ∧
      soc - min p (max 0 (min pdis ((soc - res) * e / TIMESTEP_HOURS))) *
        TIMESTEP_HOURS / e ≤ 1 := by
  have hT := timestep_hours_pos
  set X := (soc - res) * e / TIMESTEP_HOURS with hXdef
  have hX : (0:ℚ) ≤ X := by
    apply div_nonneg (mul_nonneg (by linarith) he.le) hT.le
  set out := min p (max 0 (min pdis X)) with houtdef
  have hout0 : 0 ≤ out := le_min hp.le (le_max_left 0 _)
  have hout_le : out ≤ X :=
    (min_le_right _ _).trans (max_le hX (min_le_right _ _))
  have hXTe : X * TIMESTEP_HOURS / e = soc - res := by
    rw [hXdef]
    field_simp
  have hkey : out * TIMESTEP_HOURS / e ≤ soc - res := by
    rw [← hXTe]
    exact div_le_div_of_nonneg_right
      (mul_le_mul_of_nonneg_right hout_le hT.le) he.le
  have hnn : 0 ≤ out * TIMESTEP_HOURS / e :=
    div_nonneg (mul_nonneg hout0 hT.le) he.le
  constructor <;> linarith

/-- Charging moves the SOC up by at most the headroom to full. -/
theorem soc_charge_bounds (soc res e p pch : ℚ) (he : 0 < e) (hch : 0 ≤ pch)
    (h1 : res ≤ soc) (h2 : soc ≤ 1) (hp : p < 0) :
    res ≤ soc + min (-p) (min pch ((1 - soc) * e / TIMESTEP_HOURS)) *
        TIMESTEP_HOURS / e ∧
      soc + min (-p) (min pch ((1 - soc) * e / TIMESTEP_HOURS)) *
        TIMESTEP_HOURS / e ≤ 1 := by
  have hT := timestep_hours_pos
  set Y := (1 - soc) * e / TIMESTEP_HOURS with hYdef
  have hY : (0:ℚ) ≤ Y := by
    apply div_nonneg (mul_nonneg (by linarith) he.le) hT.le
  set rate := min (-p) (min pch Y) with hratedef
  have hrate0 : 0 ≤ rate := le_min (by linarith) (le_min hch hY)
  have hrate_le : rate ≤ Y := (min_le_right _ _).trans (min_le_right _ _)
  have hYTe : Y * TIMESTEP_HOURS / e = 1 - soc := by
    rw [hYdef]
    field_simp
  have hkey : rate * TIMESTEP_HOURS / e ≤ 1 - soc := by
    rw [← hYTe]
    exact div_le_div_of_nonneg_right
      (mul_le_mul_of_nonneg_right hrate_le hT.le) he.le
  have hnn : 0 ≤ rate * TIMESTEP_HOURS / e :=
    div_nonneg (mul_nonneg hrate0 hT.le) he.le
  constructor <;> linarith

/-- C4: for every battery whose SOC starts in [soc_reserve, 1] (with a
positive capacity and a nonnegative charge limit), one updateBatteryResi
step keeps the SOC in [soc_reserve, 1], for every command of any variant, a
missing command, and every random outcome. -/
theorem C4_battery_soc_invariant (asset : BatteryResi)
    (command : Option AssetCommand) (config : ScenCfg) (r : Rng)
    (he : 0 < asset.params.e_kwh) (hch : 0 ≤ asset.params.p_ch_kw)
    (h1 : asset.params.soc_reserve ≤ asset.state.soc)
    (h2 : asset.state.soc ≤ 1) :
    asset.params.soc_reserve ≤
        (updateBatteryResi asset command config r).1.state.soc ∧
      (updateBatteryResi asset command config r).1.state.soc ≤ 1 := by
  by_cases hd : asset.state.dropped
  · simp only [updateBatteryResi, hd, if_true]
    exact ⟨h1, h2⟩
  · rcases command with _ | c
    · simp only [updateBatteryResi, hd]
      simp [appliedCommand]
      exact ⟨h1, h2⟩
    · by_cases hnc : r.stream r.pos < config.noncompliance.probability
      · simp only [updateBatteryResi, hd]
        simp [appliedCommand, rollNoncompliance, Rng.next, hnc]
        exact ⟨h1, h2⟩
      · cases c with
        | hvac d =>
          simp only [updateBatteryResi, hd]
          simp [appliedCommand, rollNoncompliance, Rng.next, hnc,
            AssetCommand.read_power_kw]
          exact ⟨h1, h2⟩
        | fleet cap =>
          simp only [updateBatteryResi, hd]
          simp [appliedCommand, rollNoncompliance, Rng.next, hnc,
            AssetCommand.read_power_kw]
          exact ⟨h1, h2⟩
        | ci s b =>
          simp only [updateBatteryResi, hd]
          simp [appliedCommand, rollNoncompliance, Rng.next, hnc,
            AssetCommand.read_power_kw]
          exact ⟨h1, h2⟩
        | battery p =>
          simp only [updateBatteryResi, hd]
          simp [appliedCommand, rollNoncompliance, Rng.next, hnc,
            AssetCommand.read_power_kw]
          split_ifs with hp hn
          · exact soc_discharge_bounds _ _ _ _ _ he h1 h2 hp
          · exact soc_charge_bounds _ _ _ _ _ he hch h1 h2 hn
          · exact ⟨h1, h2⟩
        | ev p =>
          simp only [updateBatteryResi, hd]
          simp [appliedCommand, rollNoncompliance, Rng.next, hnc,
            AssetCommand.read_power_kw]
          split_ifs with hp hn
          · exact soc_discharge_bounds _ _ _ _ _ he h1 h2 hp
          · exact soc_charge_bounds _ _ _ _ _ he hch h1 h2 hn
          · exact ⟨h1, h2⟩

/-- The fatigue written by the C&I core step is floored at 0. -/
theorem ciCore_fatigue_nonneg (jm : JsMath) (asset : CiBuilding) (tgt : ℚ)
    (tpo : Bool) (t sh : ℕ) (config : ScenCfg) (r1 : Rng) :
    0 ≤ (ciCore jm asset tgt tpo t sh config r1).1.state.fatigue := by
  simp only [ciCore]
  split
  · simp
  · simp

/-- A C&I core step whose resulting fatigue exceeds 2 sets the dropped flag. -/
theorem ciCore_drop_of_fatigue (jm : JsMath) (asset : CiBuilding) (tgt : ℚ)
    (tpo : Bool) (t sh : ℕ) (config : ScenCfg) (r1 : Rng) :
    (ciCore jm asset tgt tpo t sh config r1).1.state.fatigue > 2 →
      (ciCore jm asset tgt tpo t sh config r1).1.state.dropped = true := by
  simp only [ciCore]
  split
  · intro _
    simp
  · intro h
    next hgt =>
      exfalso
      simp only at h
      exact absurd h (by simpa using hgt)

/-- For an undropped building, updateCiBuilding is the core step at some
resolved shed target, process target, and generator position. -/
theorem updateCi_eq_core (jm : JsMath) (config : ScenCfg) (a : CiBuilding)
    (cmd : Option AssetCommand) (t sh : ℕ) (r : Rng)
    (hd : a.state.dropped = false) :
    ∃ tgt tpo r1, updateCiBuilding jm a cmd t sh config r =
      ciCore jm a tgt tpo t sh config r1 := by
  rcases cmd with _ | c
  · exact ⟨0, a.state.process_on, r, by simp [updateCiBuilding, hd]⟩
  · by_cases hnc : r.stream r.pos < config.noncompliance.probability
    · refine ⟨0, a.state.process_on,
        (rollNoncompliance config.noncompliance.probability r).2, ?_⟩
      simp [updateCiBuilding, hd, rollNoncompliance, Rng.next, hnc]
    · refine ⟨(c.read_hvac_shed_kw).getD 0,
        (c.read_process_on).getD a.state.process_on,
        (rollNoncompliance config.noncompliance.probability r).2, ?_⟩
      simp [updateCiBuilding, hd, rollNoncompliance, Rng.next, hnc]

/-- A dropped C&I building is returned unchanged. -/
theorem updateCi_dropped (jm : JsMath) (config : ScenCfg) (a : CiBuilding)
    (cmd : Option AssetCommand) (t sh : ℕ) (r : Rng)
    (hd : a.state.dropped = true) :
    updateCiBuilding jm a cmd t sh config r = (a, 0, r) := by
  simp [updateCiBuilding, hd]

/-- The dropped flag of a C&I building is absorbing across any run. -/
theorem ciRun_dropped (jm : JsMath) (config : ScenCfg) (sh : ℕ)
    (cmds : List (Option AssetCommand)) :
    ∀ (t : ℕ) (a : CiBuilding) (r : Rng), a.state.dropped = true →
      (ciRun jm config sh t a cmds r).1 = a := by
  induction cmds with
  | nil => intro t a r _; rfl
  | cons c cs ih =>
    intro t a r hd
    simp only [ciRun, updateCi_dropped jm config a c t sh r hd]
    exact ih (t + 1) a r hd

/-- C5: after every updateCiBuilding step the fatigue is nonnegative (the
recursion is floored at 0); a result fatigue above 2 always comes with the
dropped flag set; and the dropped flag, once set, is permanent across all
subsequent ticks. -/
theorem C5_ci_fatigue (jm : JsMath) (config : ScenCfg) (asset : CiBuilding)
    (command : Option AssetCommand) (t sh : ℕ) (r : Rng) :
    (asset.state.dropped = false →
      0 ≤ (updateCiBuilding jm asset command t sh config r).1.state.fatigue) ∧
    (0 ≤ asset.state.fatigue →
      0 ≤ (updateCiBuilding jm asset command t sh config r).1.state.fatigue) ∧
    ((updateCiBuilding jm asset command t sh config r).1.state.fatigue > 2 →
      (updateCiBuilding jm asset command t sh config r).1.state.dropped = true) ∧
    (asset.state.dropped = true →
      updateCiBuilding jm asset command t sh config r = (asset, 0, r)) ∧
    (∀ (t0 : ℕ) (cmds : List (Option AssetCommand)) (r0 : Rng),
      asset.state.dropped = true →
      (ciRun jm config sh t0 asset cmds r0).1 = asset) := by
  by_cases hd : asset.state.dropped
  · refine ⟨fun h => by simp [h] at hd, ?_, ?_, ?_, ?_⟩
    · intro h0
      simpa [updateCi_dropped jm config asset command t sh r hd] using h0
    · intro _
      simpa [updateCi_dropped jm config asset command t sh r hd] using hd
    · intro _
      exact updateCi_dropped jm config asset command t sh r hd
    · intro t0 cmds r0 _
      exact ciRun_dropped jm config sh cmds t0 asset r0 hd
  · have hd' : asset.state.dropped = false := by simpa using hd
    obtain ⟨tgt, tpo, r1, heq⟩ := updateCi_eq_core jm config asset command t sh r hd'
    refine ⟨fun _ => ?_, fun _ => ?_, ?_, fun h => by simp [h] at hd,
      fun t0 cmds r0 h => by simp [h] at hd⟩
    · rw [heq]; exact ciCore_fatigue_nonneg jm asset tgt tpo t sh config r1
    · rw [heq]; exact ciCore_fatigue_nonneg jm asset tgt tpo t sh config r1
    · rw [heq]; exact ciCore_drop_of_fatigue jm asset tgt tpo t sh config r1

/-- A dropped EV is returned unchanged. -/
theorem updateEv_dropped (config : ScenCfg) (a : EvResi)
    (cmd : Option AssetCommand) (t : ℕ) (r : Rng)
    (hd : a.state.dropped = true) :
    updateEvResi a cmd t config r = (a, 0, r) := by
  simp [updateEvResi, hd]

/-- The dropped flag of an EV is absorbing across any run. -/
theorem evRun_dropped (config : ScenCfg) (cmds : List (Option AssetCommand)) :
    ∀ (t : ℕ) (a : EvResi) (r : Rng), a.state.dropped = true →
      (evRun config t a cmds r).1 = a := by
  induction cmds with
  | nil => intro t a r _; rfl
  | cons c cs ih =>
    intro t a r hd
    simp only [evRun, updateEv_dropped config a c t r hd]
    exact ih (t + 1) a r hd

/-- One EV step for a plugged, undropped EV before departure whose override
is already on or whose deadline trigger fires: the override is (or stays) on,
the EV stays plugged and undropped, charges at the max rate, and keeps its
parameters. -/
theorem ev_step_override (config : ScenCfg) (a : EvResi) (t : ℕ)
    (cmd : Option AssetCommand) (r : Rng)
    (hd : a.state.dropped = false) (hp : a.state.plugged = true)
    (ht : t < a.params.t_depart)
    (hcase : a.state.override_active = true ∨
      (a.params.e_req_kwh - a.state.e_kwh > 0 ∧
        a.params.p_max_kw * ((a.params.t_depart : ℚ) - (t : ℚ)) *
          TIMESTEP_HOURS ≤ (a.params.e_req_kwh - a.state.e_kwh) * (11/10))) :
    (updateEvResi a cmd t config r).1.state.override_active = true ∧
    (updateEvResi a cmd t config r).1.state.plugged = true ∧
    (updateEvResi a cmd t config r).1.state.dropped = false ∧
    (updateEvResi a cmd t config r).1.state.e_kwh =
      min (a.state.e_kwh + a.params.p_max_kw * TIMESTEP_HOURS)
        a.params.e_capacity_kwh ∧
    (updateEvResi a cmd t config r).1.params = a.params := by
  have hnd : ¬(t ≥ a.params.t_depart) := by omega
  have hAor : a.state.e_kwh < a.params.e_req_kwh ∧
      a.params.p_max_kw * ((a.params.t_depart : ℚ) - (t : ℚ)) *
        TIMESTEP_HOURS ≤ (a.params.e_req_kwh - a.state.e_kwh) * (11/10) ∨
      a.state.override_active = true := by
    rcases hcase with hov | ⟨h1, h2⟩
    · exact Or.inr hov
    · exact Or.inl ⟨by linarith, h2⟩
  simp only [updateEvResi, hd, hp, hnd]
  simp only [ge_iff_le, Bool.not_true, and_false, if_false, not_true,
    Bool.false_eq_true]
  simp [sub_pos]
  refine ⟨hAor, ?_⟩
  rw [if_pos hAor]

/-- While the override is on, it survives every further tick before the
departure tick, whatever commands and draws occur. -/
theorem evRun_override (config : ScenCfg) (cmds : List (Option AssetCommand)) :
    ∀ (t : ℕ) (a : EvResi) (r : Rng),
      a.state.dropped = false → a.state.plugged = true →
      a.state.override_active = true →
      t + cmds.length ≤ a.params.t_depart →
      (evRun config t a cmds r).1.state.override_active = true ∧
      (evRun config t a cmds r).1.state.plugged = true ∧
      (evRun config t a cmds r).1.state.dropped = false ∧
      (evRun config t a cmds r).1.params = a.params := by
  induction cmds with
  | nil => intro t a r hd hp hov _; exact ⟨hov, hp, hd, rfl⟩
  | cons c cs ih =>
    intro t a r hd hp hov hlen
    have ht : t < a.params.t_depart := by
      simp only [List.length_cons] at hlen; omega
    obtain ⟨h1, h2, h3, _, h5⟩ :=
      ev_step_override config a t c r hd hp ht (Or.inl hov)
    simp only [evRun]
    have := ih (t + 1) (updateEvResi a c t config r).1
      (updateEvResi a c t config r).2.2 h3 h2 h1
      (by rw [h5]; simp only [List.length_cons] at hlen; omega)
    rw [h5] at this
    exact this

/-- C3 (amended): for a plugged, undropped EV before departure that still
needs charge, the deadline condition of the code,
(t_depart − t)·p_max·TIMESTEP_HOURS ≤ 1.1·(e_req − e_kwh), turns the
override on, and while the override is on the EV charges at p_max regardless
of any command; the override persists through every tick before departure;
from the first update at or after t_depart the EV is dropped and unplugged,
permanently.  (The claim as written omits the plugged/arrival qualification —
see the counterexample — and omits the TIMESTEP_HOURS factor converting the
max charging power to per-tick energy.) -/
theorem C3_ev_override_spec (config : ScenCfg) (a : EvResi) (t : ℕ)
    (cmd : Option AssetCommand) (r : Rng) :
    (a.state.dropped = false → a.state.plugged = true →
      t < a.params.t_depart → a.state.e_kwh < a.params.e_req_kwh →
      a.params.p_max_kw * ((a.params.t_depart : ℚ) - (t : ℚ)) *
          TIMESTEP_HOURS ≤
        11/10 * (a.params.e_req_kwh - a.state.e_kwh) →
      (updateEvResi a cmd t config r).1.state.override_active = true ∧
      (updateEvResi a cmd t config r).1.state.e_kwh =
        min (a.state.e_kwh + a.params.p_max_kw * TIMESTEP_HOURS)
          a.params.e_capacity_kwh) ∧
    (a.state.dropped = false → a.state.plugged = true →
      t < a.params.t_depart → a.state.override_active = true →
      (updateEvResi a cmd t config r).1.state.override_active = true ∧
      (updateEvResi a cmd t config r).1.state.e_kwh =
        min (a.state.e_kwh + a.params.p_max_kw * TIMESTEP_HOURS)
          a.params.e_capacity_kwh) ∧
    (a.state.dropped = false → a.params.t_depart ≤ t →
      (updateEvResi a cmd t config r).1.state.dropped = true ∧
      (updateEvResi a cmd t config r).1.state.plugged = false) ∧
    (a.state.dropped = true → updateEvResi a cmd t config r = (a, 0, r)) ∧
    (∀ (cmds : List (Option AssetCommand)) (r0 : Rng),
      a.state.dropped = true → (evRun config t a cmds r0).1 = a) ∧
    (∀ (cmds : List (Option AssetCommand)) (r0 : Rng),
      a.state.dropped = false → a.state.plugged = true →
      a.state.override_active = true →
      t + cmds.length ≤ a.params.t_depart →
      (evRun config t a cmds r0).1.state.override_active = true ∧
      (evRun config t a cmds r0).1.state.plugged = true ∧
      (evRun config t a cmds r0).1.state.dropped = false) := by
  refine ⟨?_, ?_, ?_, ?_, ?_, ?_⟩
  · intro hd hp ht hlt hclaim
    have hDE : a.params.e_req_kwh - a.state.e_kwh > 0 := by linarith
    have hcode : a.params.p_max_kw * ((a.params.t_depart : ℚ) - (t : ℚ)) *
        TIMESTEP_HOURS ≤ (a.params.e_req_kwh - a.state.e_kwh) * (11/10) := by
      linarith
    obtain ⟨h1, _, _, h4, _⟩ :=
      ev_step_override config a t cmd r hd hp ht (Or.inr ⟨hDE, hcode⟩)
    exact ⟨h1, h4⟩
  · intro hd hp ht hov
    obtain ⟨h1, _, _, h4, _⟩ :=
      ev_step_override config a t cmd r hd hp ht (Or.inl hov)
    exact ⟨h1, h4⟩
  · intro hd hdep
    have hge : t ≥ a.params.t_depart := hdep
    simp [updateEvResi, hd, hge]
  · intro hd
    exact updateEv_dropped config a cmd t r hd
  · intro cmds r0 hd
    exact evRun_dropped config cmds t a r0 hd
  · intro cmds r0 hd hp hov hlen
    obtain ⟨h1, h2, h3, _⟩ := evRun_override config cmds t a r0 hd hp hov hlen
    exact ⟨h1, h2, h3⟩

/-- Witness for C3 at a concrete plugged EV under deadline pressure. -/
theorem C3_witness :
    evW.state.plugged = true ∧
      (updateEvResi evW none 0 cfgB rng0).1.state.override_active = true :=
  ⟨by norm_num [evW],
    ((C3_ev_override_spec cfgB evW 0 none rng0).1 (by norm_num [evW])
      (by norm_num [evW]) (by norm_num [evW]) (by norm_num [evW])
      (by norm_num [evW, TIMESTEP_HOURS])).1⟩

/-- Counterexample to C3 as stated: at tick 0 this EV satisfies the claimed
deadline inequality, but it has not arrived yet (t_arrival = 5), so the
update leaves override_active false. -/
theorem C3_counterexample :
    evCx.params.p_max_kw * ((evCx.params.t_depart : ℚ) - (0 : ℚ)) ≤
      11/10 * (evCx.params.e_req_kwh - evCx.state.e_kwh) ∧
    (updateEvResi evCx none 0 cfgB rng0).1.state.override_active = false := by
  constructor
  · norm_num [evCx]
  · norm_num [updateEvResi, evCx, cfgB, rng0, sigma0]

/-- Witness for C5 at a concrete C&I building and shed command. -/
theorem C5_witness :
    ciW.state.dropped = false ∧
      0 ≤ (updateCiBuilding jm0 ciW (some (AssetCommand.ci 50 true)) 0 14 cfgB
        rng0).1.state.fatigue :=
  ⟨by norm_num [ciW],
    (C5_ci_fatigue jm0 cfgB ciW (some (AssetCommand.ci 50 true)) 0 14 rng0).1
      (by norm_num [ciW])⟩

/-- The HVAC power delta is clamped at zero. -/
theorem updateHvac_delta_nonneg (a : HvacResi) (cmd : Option AssetCommand)
    (temp : ℚ) (config : ScenCfg) (r : Rng) :
    0 ≤ (updateHvacResi a cmd temp config r).2.1 := by
  rcases hA : appliedCommand cmd config.noncompliance.probability r with
    ⟨applied, r1⟩
  simp only [updateHvacResi, hA, updateBaselineDrift, applyMeasurementNoise,
    Rng.next]
  split
  · simp
  · simp [le_max_left]

/-- The EV power delta is clamped at zero. -/
theorem updateEv_delta_nonneg (a : EvResi) (cmd : Option AssetCommand)
    (t : ℕ) (config : ScenCfg) (r : Rng) :
    0 ≤ (updateEvResi a cmd t config r).2.1 := by
  simp only [updateEvResi, updateBaselineDrift, applyMeasurementNoise,
    Rng.next, rollNoncompliance]
  split
  · simp
  · split
    · simp
    · split
      · simp
      · split
        · simp
        · simp [le_max_left]

/-- The fleet-site power delta is clamped at zero. -/
theorem updateFleet_delta_nonneg (a : FleetSite) (cmd : Option AssetCommand)
    (t : ℕ) (config : ScenCfg) (r : Rng) :
    0 ≤ (updateFleetSite a cmd t config r).2.1 := by
  simp only [updateFleetSite, updateBaselineDrift, applyMeasurementNoise,
    Rng.next, rollNoncompliance]
  split
  · simp
  · simp [le_max_left]

/-- The C&I core power delta is clamped at zero. -/
theorem ciCore_delta_nonneg (jm : JsMath) (a : CiBuilding) (tgt : ℚ)
    (tpo : Bool) (t sh : ℕ) (config : ScenCfg) (r1 : Rng) :
    0 ≤ (ciCore jm a tgt tpo t sh config r1).2.1 := by
  simp only [ciCore, updateBaselineDrift, applyMeasurementNoise, Rng.next]
  split
  · simp
  · simp [le_max_left]

/-- The C&I power delta is clamped at zero. -/
theorem updateCi_delta_nonneg (jm : JsMath) (a : CiBuilding)
    (cmd : Option AssetCommand) (t sh : ℕ) (config : ScenCfg) (r : Rng) :
    0 ≤ (updateCiBuilding jm a cmd t sh config r).2.1 := by
  by_cases hd : a.state.dropped
  · simp [updateCi_dropped jm config a cmd t sh r hd]
  · obtain ⟨tgt, tpo, r1, heq⟩ := updateCi_eq_core jm config a cmd t sh r
      (by simpa using hd)
    rw [heq]
    exact ciCore_delta_nonneg jm a tgt tpo t sh config r1

/-- The battery power delta is the clamped discharge scaled by the
measurement-noise factor, which is nonnegative whenever the configured noise
percentage lies in [0, 1] and the draws lie in [0, 1). -/
theorem updateBattery_delta_nonneg (a : BatteryResi)
    (cmd : Option AssetCommand) (config : ScenCfg) (r : Rng)
    (hp0 : 0 ≤ config.measurement_noise.pct_uniform)
    (hp1 : config.measurement_noise.pct_uniform ≤ 1) (hr : r.valid) :
    0 ≤ (updateBatteryResi a cmd config r).2.1 := by
  rcases hA : appliedCommand cmd config.noncompliance.probability r with
    ⟨applied, r1⟩
  have hstream : r1.stream = r.stream := by
    rcases cmd with _ | c
    · simp only [appliedCommand] at hA
      obtain ⟨-, h2⟩ := Prod.mk.injEq .. ▸ hA
      rw [← h2]
    · simp only [appliedCommand, rollNoncompliance, Rng.next] at hA
      obtain ⟨-, h2⟩ := Prod.mk.injEq .. ▸ hA
      rw [← h2]
  simp only [updateBatteryResi, hA, updateBaselineDrift,
    applyMeasurementNoise, Rng.next]
  split
  · simp
  · apply mul_nonneg
    · split_ifs with h
      · exact le_of_lt h
      · exact le_refl 0
    · have hu := hr (r1.pos + 1)
      rw [← hstream] at hu
      nlinarith [mul_nonneg hp0 hu.1]

/-- C10: for every asset, every command whose variant matches the asset type
(or no command at all), and every random outcome, the power delta returned by
updateAsset is nonnegative.  Only the battery branch needs the bound on the
measurement-noise percentage (its clamp precedes the noise); the other four
branches clamp after the noise. -/
theorem C10_power_delta_nonneg (jm : JsMath) (asset : Asset)
    (cmd : Option AssetCommand) (t : ℕ) (temp : ℚ) (sh : ℕ)
    (config : ScenCfg) (r : Rng)
    (hm : ∀ c ∈ cmd, commandMatches asset c)
    (hp0 : 0 ≤ config.measurement_noise.pct_uniform)
    (hp1 : config.measurement_noise.pct_uniform ≤ 1) (hr : r.valid) :
    0 ≤ (updateAsset jm asset cmd t temp sh config r).2.1 := by
  cases asset with
  | hvac a =>
    have h := updateHvac_delta_nonneg a cmd temp config r
    rcases hE : updateHvacResi a cmd temp config r with ⟨a', d, r'⟩
    rw [hE] at h
    simpa [updateAsset, hE] using h
  | battery a =>
    have h := updateBattery_delta_nonneg a cmd config r hp0 hp1 hr
    rcases hE : updateBatteryResi a cmd config r with ⟨a', d, r'⟩
    rw [hE] at h
    simpa [updateAsset, hE] using h
  | ev a =>
    have h := updateEv_delta_nonneg a cmd t config r
    rcases hE : updateEvResi a cmd t config r with ⟨a', d, r'⟩
    rw [hE] at h
    simpa [updateAsset, hE] using h
  | fleet a =>
    have h := updateFleet_delta_nonneg a cmd t config r
    rcases hE : updateFleetSite a cmd t config r with ⟨a', d, r'⟩
    rw [hE] at h
    simpa [updateAsset, hE] using h
  | ci a =>
    have h := updateCi_delta_nonneg jm a cmd t sh config r
    rcases hE : updateCiBuilding jm a cmd t sh config r with ⟨a', d, r'⟩
    rw [hE] at h
    simpa [updateAsset, hE] using h

/-- Witness for C10 at a concrete battery and matched command. -/
theorem C10_witness :
    (∀ c ∈ some (AssetCommand.battery 2), commandMatches (Asset.battery bat0) c) ∧
      0 ≤ (updateAsset jm0 (Asset.battery bat0) (some (AssetCommand.battery 2))
        0 75 14 cfgB rng0).2.1 :=
  ⟨by intro c hc; cases hc; simp [commandMatches],
    C10_power_delta_nonneg jm0 (Asset.battery bat0)
      (some (AssetCommand.battery 2)) 0 75 14 cfgB rng0
      (by intro c hc; cases hc; simp [commandMatches])
      (by norm_num [cfgB]) (by norm_num [cfgB])
      (by intro i; constructor <;> norm_num [rng0, sigma0])⟩

/-- Witness for C4 at a concrete battery, command, and draw stream. -/
theorem C4_witness :
    (0:ℚ) < 12 ∧
      (1:ℚ)/5 ≤ (updateBatteryResi bat0 (some (AssetCommand.battery 100))
          cfgB rng0).1.state.soc ∧
      (updateBatteryResi bat0 (some (AssetCommand.battery 100))
          cfgB rng0).1.state.soc ≤ 1 :=
  ⟨by norm_num,
    C4_battery_soc_invariant bat0 (some (AssetCommand.battery 100)) cfgB rng0
      (by norm_num [bat0]) (by norm_num [bat0]) (by norm_num [bat0])
      (by norm_num [bat0])⟩

/-- C8: a battery command union member of the wrong variant (an HVAC
setpoint command) delivered to a battery asset is processed as an ordinary
command: updateAsset consumes the noncompliance roll, the drift draw and the
noise draw (three draws) and returns a normal (asset, powerDelta) result with
the command silently having no effect — there is no inapplicable outcome in
the return type, and none is signalled. -/
theorem C8_mismatch_not_rejected :
    updateAsset jm0 (Asset.battery bat0) (some (AssetCommand.hvac 2)) 0 75 14
        cfgB rng0 =
      (Asset.battery bat0, 0, { stream := sigma0, pos := 3 }) := by
  norm_num [updateAsset, updateBatteryResi, appliedCommand, rollNoncompliance,
    updateBaselineDrift, applyMeasurementNoise, Rng.next, rng0, sigma0, bat0,
    cfgB, jm0, AssetCommand.read_power_kw, TIMESTEP_HOURS]

/-- C9: the dispatch engine synthesizes an HVAC command with a whole-degree
setpoint shift of 3 °F (at full intensity under the opportunity-seeking
posture), exceeding the documented ±2 °F bound. -/
theorem C9_hvac_shift_exceeds_bound :
    createDispatchCommand jm0 (Asset.hvac hvacCx) 10
        (RISK_POSTURE_PARAMS RiskPosture.opportunity_seeking) 100 =
      some { asset_id := "h2", command := AssetCommand.hvac 3 } ∧
    ¬(|(3 : ℚ)| ≤ 2) := by
  constructor
  · norm_num [createDispatchCommand, hvacCx, RISK_POSTURE_PARAMS, jround,
      jm0, min_def]
  · norm_num

/-- C1: at every executed tick, the penalty accumulated into total_penalty is
exactly (|target − achieved| / (target + 0.001)) ^ penalty_exponent, scaled by
the difficulty's over-performance factor exactly when achieved > target; the
recorded TimestepResult.penalty is that value rounded to four decimals.
In particular at the medium difficulty (exponent 2.0): target 100, achieved
80 gives (20/100.001)² ∈ (0.0399, 0.0401), and target 100, achieved 120
gives (20/100.001)²·0.5 ∈ (0.0199, 0.0201). -/
theorem C1_penalty_exactness :
    (∀ (jm : JsMath) (e : Engine) (r : Rng),
      e.st.current_timestep < e.st.scen.cfg.timesteps →
      (advanceTimestep jm e r).1.st.total_penalty =
        e.st.total_penalty +
          penaltyFormula e.difficulty (tickTarget e) (tickAchieved jm e r) ∧
      ((advanceTimestep jm e r).1.st.history.getLast?).map
          (fun tr => tr.penalty) =
        some (jroundR (penaltyFormula e.difficulty (tickTarget e)
          (tickAchieved jm e r) * 10000) / 10000)) ∧
    penaltyFormula DifficultyLevel.medium 100 80 = ((20000 : ℝ) / 100001) ^ 2 ∧
    (399 : ℝ)/10000 < ((20000 : ℝ) / 100001) ^ 2 ∧
      ((20000 : ℝ) / 100001) ^ 2 < (401 : ℝ)/10000 ∧
    penaltyFormula DifficultyLevel.medium 100 120 =
      ((20000 : ℝ) / 100001) ^ 2 * (1/2) ∧
    (199 : ℝ)/10000 < ((20000 : ℝ) / 100001) ^ 2 * (1/2) ∧
      ((20000 : ℝ) / 100001) ^ 2 * (1/2) < (201 : ℝ)/10000 := by
  have hq : ((20 : ℚ) / (100 + 1/1000) : ℚ) = 20000/100001 := by norm_num
  have hcast2 : (((2 : ℚ) : ℝ)) = ((2 : ℕ) : ℝ) := by norm_num
  have hpow : ∀ x : ℚ, jsPow ((x : ℚ) : ℝ) (((2 : ℚ) : ℝ)) = ((x : ℝ)) ^ 2 := by
    intro x
    rw [jsPow, hcast2, Real.rpow_natCast]
  constructor
  · intro jm e r h
    have hn : ¬(e.st.current_timestep ≥ e.st.scen.cfg.timesteps) := not_le.mpr h
    constructor
    · simp only [advanceTimestep, if_neg hn]
      simp only [tickAchieved, tickTarget, penaltyFormula]
      by_cases hov : ((e.st.scen.cfg.objective.target_kw).getD 0 : ℚ) <
          (assetLoop jm (executeComposableStrategy jm (tickContext e) r).1
            e.st.current_timestep
            ((e.st.scen.cfg.weather.outdoor_temp_f.get?
              e.st.current_timestep).getD 75)
            e.st.scen.cfg.start_hour e.st.scen.cfg
            (DIFFICULTY_PRESETS e.difficulty).response_variability
            e.st.assets (executeComposableStrategy jm (tickContext e) r).2).2.1
      · simp [hov]
      · simp [hov]
    · simp only [advanceTimestep, if_neg hn]
      simp only [List.getLast?_concat, Option.map_some]
      simp only [tickAchieved, tickTarget, penaltyFormula]
      by_cases hov : ((e.st.scen.cfg.objective.target_kw).getD 0 : ℚ) <
          (assetLoop jm (executeComposableStrategy jm (tickContext e) r).1
            e.st.current_timestep
            ((e.st.scen.cfg.weather.outdoor_temp_f.get?
              e.st.current_timestep).getD 75)
            e.st.scen.cfg.start_hour e.st.scen.cfg
            (DIFFICULTY_PRESETS e.difficulty).response_variability
            e.st.assets (executeComposableStrategy jm (tickContext e) r).2).2.1
      · simp [hov]
      · simp [hov]
  have h2 : ((DIFFICULTY_PRESETS DifficultyLevel.medium).penalty_exponent : ℚ)
      = 2 := by norm_num [DIFFICULTY_PRESETS]
  refine ⟨?_, ?_, ?_, ?_, ?_, ?_⟩
  · have h1 : (|(100 : ℚ) - 80| / (100 + 1/1000) : ℚ) = 20000/100001 := by
      norm_num
    rw [penaltyFormula, h1, h2, hpow, if_neg (by norm_num : ¬((100:ℚ) < 80)),
      mul_one]
    push_cast
    norm_num
  · norm_num
  · norm_num
  · have h1 : (|(100 : ℚ) - 120| / (100 + 1/1000) : ℚ) = 20000/100001 := by
      norm_num
    have h3 : ((DIFFICULTY_PRESETS DifficultyLevel.medium).over_penalty_scale :
        ℚ) = 1/2 := by norm_num [DIFFICULTY_PRESETS]
    rw [penaltyFormula, h1, h2, hpow, if_pos (by norm_num : (100:ℚ) < 120), h3]
    push_cast
    norm_num
  · norm_num
  · norm_num

/-- Witness for C1 at a concrete one-tick engine. -/
theorem C1_witness :
    engineZ.st.current_timestep < engineZ.st.scen.cfg.timesteps ∧
      (advanceTimestep jm0 engineZ rng0).1.st.total_penalty =
        engineZ.st.total_penalty +
          penaltyFormula engineZ.difficulty (tickTarget engineZ)
            (tickAchieved jm0 engineZ rng0) :=
  ⟨by norm_num [engineZ, initEngine, scenZ, cfgZ],
    (C1_penalty_exactness.1 jm0 engineZ rng0
      (by norm_num [engineZ, initEngine, scenZ, cfgZ])).1⟩

/-- advanceTimestep never touches the scenario or the configuration fields. -/
theorem advance_preserves (jm : JsMath) (e : Engine) (r : Rng) :
    (advanceTimestep jm e r).1.st.scen = e.st.scen ∧
    (advanceTimestep jm e r).1.strategyConfig = e.strategyConfig ∧
    (advanceTimestep jm e r).1.difficulty = e.difficulty ∧
    (advanceTimestep jm e r).1.dispatchIntensity = e.dispatchIntensity := by
  by_cases hn : e.st.current_timestep ≥ e.st.scen.cfg.timesteps
  · simp [advanceTimestep, if_pos hn]
  · simp [advanceTimestep, if_neg hn]

/-- Runs never touch the scenario or the configuration fields. -/
theorem runN_preserves (jm : JsMath) : ∀ (n : ℕ) (e : Engine) (r : Rng),
    (runN jm n e r).1.st.scen = e.st.scen ∧
    (runN jm n e r).1.strategyConfig = e.strategyConfig ∧
    (runN jm n e r).1.difficulty = e.difficulty ∧
    (runN jm n e r).1.dispatchIntensity = e.dispatchIntensity := by
  intro n
  induction n with
  | zero => intro e r; exact ⟨rfl, rfl, rfl, rfl⟩
  | succ n ih =>
    intro e r
    obtain ⟨h1, h2, h3, h4⟩ := advance_preserves jm e r
    obtain ⟨g1, g2, g3, g4⟩ := ih (advanceTimestep jm e r).1
      (advanceTimestep jm e r).2
    simp only [runN]
    exact ⟨g1.trans h1, g2.trans h2, g3.trans h3, g4.trans h4⟩

/-- C2 (amended): reset() fully restores the engine to its initial state
(re-cloned assets, cleared history and feedback memory), so a replay that is
fed the very same random draws as the original run reproduces the run — the
whole engine, hence the TimestepResult history, byte for byte.  The claim as
stated fails only because the source draws from the global, non-seedable
generator, so an actual replay consumes different draws (see the
counterexample). -/
theorem C2_reset_determinism (jm : JsMath) (n : ℕ) (scen : Scen)
    (cfgS : StrategyConfig) (d : DifficultyLevel) (di : DispatchIntensity)
    (r r' : Rng) :
    resetEngine (runN jm n (initEngine scen cfgS d di) r').1 =
      initEngine scen cfgS d di ∧
    runN jm n (resetEngine (runN jm n (initEngine scen cfgS d di) r').1) r =
      runN jm n (initEngine scen cfgS d di) r := by
  obtain ⟨h1, h2, h3, h4⟩ := runN_preserves jm n (initEngine scen cfgS d di) r'
  have h0 : resetEngine (runN jm n (initEngine scen cfgS d di) r').1 =
      initEngine scen cfgS d di := by
    rw [resetEngine, h1, h2, h3, h4]
    rfl
  exact ⟨h0, by rw [h0]⟩

/-- Counterexample to C2 as stated: running the one-tick battery scenario,
resetting, and replaying on the (unreset) global draw stream records a
different achieved_kw history (3 kW originally, 0 kW on replay, because the
replay's noncompliance draw falls differently). -/
theorem C2_replay_differs :
    cxRunReplay.1.st.history.map (fun tr => tr.achieved_kw) ≠
      cxRunOriginal.1.st.history.map (fun tr => tr.achieved_kw) := by
  have h1 : cxRunOriginal.1.st.history.map (fun tr => tr.achieved_kw) =
      [3] := by
    norm_num [cxRunOriginal, runN, advanceTimestep, executeComposableStrategy,
      feedbackControlDispatch, tickContext, initEngine, scenB, cfgB, bat0, jm0,
      sigma2, DEFAULT_STRATEGY_CONFIG, DEFAULT_DISPATCH_INTENSITY,
      selectAndOrderAssets, calculateRampUpPercentage, RISK_POSTURE_PARAMS,
      calculateOrderingScore, orderingScoreParts, orderingCaseScore, List.enum,
      List.enumFrom, getAvailableCapacity, Asset.droppedFlag, Asset.id,
      Asset.type, jsSortBy, insertLe, adjustTargetForObjective,
      dispatchToTarget, dispatchLoop, createDispatchCommand,
      getCommandContribution, perfScore, calculateHeadroom,
      nextAccumulatedError, List.filter, List.foldl, List.map, List.lookup,
      max_def, Int.toNat, List.take, ceil_as_floor, jsMapGet, assetMapGet,
      scoreMapSet, ByType.inc, ByType.zero, assetLoop, updateAsset,
      updateBatteryResi, appliedCommand, rollNoncompliance, Rng.next,
      updateBaselineDrift, applyMeasurementNoise, TIMESTEP_HOURS, round1,
      jround, DIFFICULTY_PRESETS, updateScores, AssetCommand.read_power_kw,
      AssetCommand.read_delta_setpoint_f, AssetCommand.read_site_power_cap_kw,
      AssetCommand.read_hvac_shed_kw, AssetCommand.read_process_on, min_def]
  have h2 : cxRunReplay.1.st.history.map (fun tr => tr.achieved_kw) =
      [0] := by
    norm_num [cxRunReplay, cxRunOriginal, resetEngine, runN, advanceTimestep,
      executeComposableStrategy, feedbackControlDispatch, tickContext,
      initEngine, scenB, cfgB, bat0, jm0, sigma2, DEFAULT_STRATEGY_CONFIG,
      DEFAULT_DISPATCH_INTENSITY, selectAndOrderAssets,
      calculateRampUpPercentage, RISK_POSTURE_PARAMS, calculateOrderingScore,
      orderingScoreParts, orderingCaseScore, List.enum, List.enumFrom,
      getAvailableCapacity, Asset.droppedFlag, Asset.id, Asset.type, jsSortBy,
      insertLe, adjustTargetForObjective, dispatchToTarget, dispatchLoop,
      createDispatchCommand, getCommandContribution, perfScore,
      calculateHeadroom, nextAccumulatedError, List.filter, List.foldl,
      List.map, List.lookup, max_def, Int.toNat, List.take, ceil_as_floor,
      jsMapGet, assetMapGet, scoreMapSet, ByType.inc, ByType.zero, assetLoop,
      updateAsset, updateBatteryResi, appliedCommand, rollNoncompliance,
      Rng.next, updateBaselineDrift, applyMeasurementNoise, TIMESTEP_HOURS,
      round1, jround, DIFFICULTY_PRESETS, updateScores,
      AssetCommand.read_power_kw, AssetCommand.read_delta_setpoint_f,
      AssetCommand.read_site_power_cap_kw, AssetCommand.read_hvac_shed_kw,
      AssetCommand.read_process_on, min_def]
  rw [h1, h2]
  norm_num

/-- The command-synthesis walk emits nothing once the remaining target is
not positive. -/
theorem dispatchLoop_nonpos (jm : JsMath) (ctx : StrategyContext)
    (rp : RiskPostureParams) (l : List ScoredAsset) (tgt : ℚ) (h : tgt ≤ 0) :
    dispatchLoop jm ctx rp l tgt = [] := by
  cases l with
  | nil => rfl
  | cons a l => simp [dispatchLoop, h]

/-- Every objective scales a zero target to zero. -/
theorem adjustTarget_zero (jm : JsMath) (ctx : StrategyContext) :
    adjustTargetForObjective jm ctx 0 = 0 := by
  cases hO : ctx.strategyConfig.objective <;>
    simp [adjustTargetForObjective, hO]

/-- With no previously dispatched assets, maintainPreviousDispatch emits
nothing. -/
theorem maintain_nil (jm : JsMath) (ctx : StrategyContext)
    (assets : List ScoredAsset) (h : ctx.previouslyDispatchedAssetIds = []) :
    maintainPreviousDispatch jm ctx assets = [] := by
  simp only [maintainPreviousDispatch, h]
  induction assets with
  | nil => rfl
  | cons a l ih => simp [ih]

/-- Membership through the stable insertion. -/
theorem mem_insertLe {α : Type} (le : α → α → Bool) (x y : α)
    (l : List α) (h : y ∈ insertLe le x l) : y = x ∨ y ∈ l := by
  induction l with
  | nil =>
    simp [insertLe] at h
    exact Or.inl h
  | cons a l ih =>
    by_cases hle : le x a
    · simp only [insertLe, if_pos hle] at h
      rcases List.mem_cons.mp h with h | h
      · exact Or.inl h
      · exact Or.inr h
    · simp only [insertLe, if_neg hle] at h
      rcases List.mem_cons.mp h with h | h
      · exact Or.inr (by simp [h])
      · rcases ih h with h' | h'
        · exact Or.inl h'
        · exact Or.inr (by simp [h'])

/-- Membership through the stable sort. -/
theorem mem_jsSortBy {α : Type} (le : α → α → Bool) (l : List α) (x : α)
    (h : x ∈ jsSortBy le l) : x ∈ l := by
  induction l with
  | nil => simp [jsSortBy] at h
  | cons a l ih =>
    simp only [jsSortBy] at h
    rcases mem_insertLe le a x (jsSortBy le l) h with h' | h'
    · simp [h']
    · simp [ih h']

/-- Every selected asset has positive available capacity and comes from the
portfolio. -/
theorem mem_select (jm : JsMath) (ctx : StrategyContext) (sa : ScoredAsset)
    (hmem : sa ∈ selectAndOrderAssets jm ctx) :
    0 < sa.capacity ∧
      ∃ a, a ∈ ctx.assets ∧ sa.capacity = getAvailableCapacity jm a := by
  simp only [selectAndOrderAssets] at hmem
  have hsorted : sa ∈ jsSortBy (fun a b => b.score ≤ a.score)
      (((ctx.assets.filter (fun a => ¬a.droppedFlag)).map (fun a =>
        { asset := a
          capacity := getAvailableCapacity jm a
          score := calculateOrderingScore jm a
            ctx.strategyConfig.selectionOrderings ctx : ScoredAsset }))
        |>.filter (fun sa => sa.capacity > 0)) := by
    rcases List.mem_append.mp hmem with hm | hm
    · exact (List.mem_filter.mp hm).1
    · exact (List.mem_filter.mp (List.take_subset _ _ hm)).1
  have hbase := mem_jsSortBy _ _ _ hsorted
  obtain ⟨hmap, hcap⟩ := List.mem_filter.mp hbase
  obtain ⟨a, ha, rfl⟩ := List.mem_map.mp hmap
  refine ⟨by simpa using hcap, a, List.mem_of_mem_filter ha, rfl⟩

/-- A portfolio with zero available capacity everywhere selects nothing. -/
theorem select_nil_of_zero_capacity (jm : JsMath) (ctx : StrategyContext)
    (h : ∀ a ∈ ctx.assets, getAvailableCapacity jm a = 0) :
    selectAndOrderAssets jm ctx = [] := by
  rw [List.eq_nil_iff_forall_not_mem]
  intro sa hsa
  obtain ⟨hpos, a, ha, hcap⟩ := mem_select jm ctx sa hsa
  rw [hcap, h a ha] at hpos
  exact lt_irrefl 0 hpos

/-- With a zero target (and no previously dispatched assets to maintain), the
dispatch engine emits an empty command list under every decision framework,
subtype, objective, ordering list, and risk posture, for every random
outcome. -/
theorem execute_target_zero (jm : JsMath) (ctx : StrategyContext) (r : Rng)
    (htgt : ctx.targetKw = 0) (hprev : ctx.previouslyDispatchedAssetIds = []) :
    (executeComposableStrategy jm ctx r).1 = [] := by
  have hadj : adjustTargetForObjective jm ctx ctx.targetKw = 0 := by
    rw [htgt]
    exact adjustTarget_zero jm ctx
  have hloop : ∀ (rp : RiskPostureParams) (l : List ScoredAsset) (tgt : ℚ),
      tgt ≤ 0 → dispatchToTarget jm l tgt ctx rp = [] := by
    intro rp l tgt h
    exact dispatchLoop_nonpos jm ctx rp l tgt h
  cases hF : ctx.strategyConfig.decisionFramework with
  | deterministic_policy =>
    simp only [executeComposableStrategy, hF, deterministicDispatch, hadj]
    simp only [zero_mul, mul_zero, ite_self, htgt]
    rcases hP : ctx.previousAchievedKw with _ | prev <;>
      split_ifs <;>
        simp [hloop, maintain_nil jm ctx _ hprev]
  | greedy_myopic =>
    simp only [executeComposableStrategy, hF, greedyDispatch, hadj]
    split_ifs <;> simp [hloop]
  | stochastic =>
    simp only [executeComposableStrategy, hF, stochasticDispatch, hadj]
    simp [hloop]
  | feedback_control =>
    simp only [executeComposableStrategy, hF, feedbackControlDispatch, hadj,
      htgt]
    have hmax : ∀ x : ℚ, max 0 (min x ((0:ℚ) * 2)) = 0 := by
      intro x
      simp [max_eq_left, min_le_right]
    rcases hP : ctx.previousAchievedKw with _ | prev <;>
      split_ifs <;>
        simp [hloop, hmax]

/-- A portfolio with zero available capacity everywhere produces an empty
command list under every framework (not an error). -/
theorem execute_zero_capacity (jm : JsMath) (ctx : StrategyContext) (r : Rng)
    (hcap : ∀ a ∈ ctx.assets, getAvailableCapacity jm a = 0) :
    (executeComposableStrategy jm ctx r).1 = [] := by
  have hsel := select_nil_of_zero_capacity jm ctx hcap
  have hloop : ∀ (rp : RiskPostureParams) (tgt : ℚ),
      dispatchToTarget jm [] tgt ctx rp = [] := fun rp tgt => rfl
  cases hF : ctx.strategyConfig.decisionFramework with
  | deterministic_policy =>
    simp only [executeComposableStrategy, hF, deterministicDispatch, hsel]
    rcases ctx.previousAchievedKw with _ | prev <;>
      split_ifs <;> simp [hloop, maintainPreviousDispatch]
  | greedy_myopic =>
    simp only [executeComposableStrategy, hF, greedyDispatch, hsel]
    split_ifs <;> simp [hloop, jsSortBy]
  | stochastic =>
    simp only [executeComposableStrategy, hF, stochasticDispatch, hsel]
    simp [hloop]
  | feedback_control =>
    simp only [executeComposableStrategy, hF, feedbackControlDispatch, hsel]
    rcases ctx.previousAchievedKw with _ | prev <;>
      split_ifs <;> simp [hloop]

/-- commandsAt in terms of the engine: zero target and empty
previously-dispatched set give an empty command list. -/
theorem commandsAt_target_zero (jm : JsMath) (e : Engine) (r : Rng)
    (htgt : tickTarget e = 0) (hprev : e.previouslyDispatchedAssets = []) :
    commandsAt jm e r = [] := by
  apply execute_target_zero
  · simpa [tickContext, tickTarget] using htgt
  · simpa [tickContext] using hprev

/-- One tick at a zero target keeps the previously-dispatched set empty and
the target zero. -/
theorem advance_target_zero (jm : JsMath) (e : Engine) (r : Rng)
    (htgt : tickTarget e = 0) (hprev : e.previouslyDispatchedAssets = []) :
    (advanceTimestep jm e r).1.previouslyDispatchedAssets = [] ∧
    tickTarget (advanceTimestep jm e r).1 = 0 := by
  have hscen := (advance_preserves jm e r).1
  have htgt' : tickTarget (advanceTimestep jm e r).1 = 0 := by
    simp only [tickTarget] at htgt ⊢
    rw [hscen]
    exact htgt
  refine ⟨?_, htgt'⟩
  by_cases hn : e.st.current_timestep ≥ e.st.scen.cfg.timesteps
  · simp only [advanceTimestep, if_pos hn]
    exact hprev
  · have hcmds : (executeComposableStrategy jm (tickContext e) r).1 = [] :=
      commandsAt_target_zero jm e r htgt hprev
    simp only [advanceTimestep, if_neg hn]
    simp [hcmds]

/-- Along a whole run at a zero target, the previously-dispatched set stays
empty (so every tick's dispatch is empty). -/
theorem runN_target_zero (jm : JsMath) : ∀ (n : ℕ) (e : Engine) (r : Rng),
    tickTarget e = 0 → e.previouslyDispatchedAssets = [] →
    (runN jm n e r).1.previouslyDispatchedAssets = [] ∧
    tickTarget (runN jm n e r).1 = 0 := by
  intro n
  induction n with
  | zero => intro e r h1 h2; exact ⟨h2, h1⟩
  | succ n ih =>
    intro e r h1 h2
    obtain ⟨g1, g2⟩ := advance_target_zero jm e r h1 h2
    simp only [runN]
    exact ih _ _ g2 g1

/-- C6 (amended): a zero target makes the dispatch engine emit an empty
command list at every tick of a whole run, under every framework and
configuration and for every random outcome, and likewise a zero-capacity
portfolio; the tick penalty is zero when the achieved power is also zero —
but not otherwise, since over-delivery against a zero target is penalized
(see the counterexample). -/
theorem C6_zero_target_dispatch :
    (∀ (jm : JsMath) (ctx : StrategyContext) (r : Rng), ctx.targetKw = 0 →
      ctx.previouslyDispatchedAssetIds = [] →
      (executeComposableStrategy jm ctx r).1 = []) ∧
    (∀ (jm : JsMath) (ctx : StrategyContext) (r : Rng),
      (∀ a ∈ ctx.assets, getAvailableCapacity jm a = 0) →
      (executeComposableStrategy jm ctx r).1 = []) ∧
    (∀ (jm : JsMath) (n : ℕ) (scen : Scen) (cfgS : StrategyConfig)
      (d : DifficultyLevel) (di : DispatchIntensity) (r r' : Rng),
      tickTarget (initEngine scen cfgS d di) = 0 →
      commandsAt jm (runN jm n (initEngine scen cfgS d di) r).1 r' = []) ∧
    (∀ d : DifficultyLevel, penaltyFormula d 0 0 = 0) := by
  refine ⟨execute_target_zero, execute_zero_capacity, ?_, ?_⟩
  · intro jm n scen cfgS d di r r' htgt
    obtain ⟨g1, g2⟩ := runN_target_zero jm n (initEngine scen cfgS d di) r
      htgt rfl
    exact commandsAt_target_zero jm _ r' g2 g1
  · intro d
    have h0 : (|(0:ℚ) - 0| / (0 + 1/1000) : ℚ) = 0 := by norm_num
    rw [penaltyFormula, h0, if_neg (lt_irrefl (0:ℚ)), mul_one, jsPow]
    push_cast
    rw [Real.zero_rpow]
    cases d <;> norm_num [DIFFICULTY_PRESETS]

/-- Witness for C6 at the concrete zero-target engine. -/
theorem C6_witness :
    (tickContext engineZ).targetKw = 0 ∧
      (executeComposableStrategy jm0 (tickContext engineZ) rng0).1 = [] :=
  ⟨by norm_num [tickContext, engineZ, initEngine, scenZ, cfgZ],
    C6_zero_target_dispatch.1 jm0 (tickContext engineZ) rng0
      (by norm_num [tickContext, engineZ, initEngine, scenZ, cfgZ])
      (by norm_num [tickContext, engineZ, initEngine])⟩

/-- At every executed tick, the accumulated penalty grows by exactly the
closed-form penalty of the tick's target and achieved power. -/
theorem advance_penalty_total (jm : JsMath) (e : Engine) (r : Rng)
    (h : e.st.current_timestep < e.st.scen.cfg.timesteps) :
    (advanceTimestep jm e r).1.st.total_penalty =
      e.st.total_penalty +
        penaltyFormula e.difficulty (tickTarget e) (tickAchieved jm e r) := by
  have hn : ¬(e.st.current_timestep ≥ e.st.scen.cfg.timesteps) := not_le.mpr h
  simp only [advanceTimestep, if_neg hn]
  simp only [tickAchieved, tickTarget, penaltyFormula]
  by_cases hov : ((e.st.scen.cfg.objective.target_kw).getD 0 : ℚ) <
      (assetLoop jm (executeComposableStrategy jm (tickContext e) r).1
        e.st.current_timestep
        ((e.st.scen.cfg.weather.outdoor_temp_f.get?
          e.st.current_timestep).getD 75)
        e.st.scen.cfg.start_hour e.st.scen.cfg
        (DIFFICULTY_PRESETS e.difficulty).response_variability
        e.st.assets (executeComposableStrategy jm (tickContext e) r).2).2.1
  · simp [hov]
  · simp [hov]

/-- Counterexample to C6 as stated: with a zero target and one HVAC asset
whose baseline runs while the unit is off, the tick's dispatch is empty, yet
the achieved 3 kW counts as over-performance against the zero target and the
accumulated penalty after one tick is 0.5 * (3/0.001)² = 4,500,000, not 0. -/
theorem C6_counterexample :
    commandsAt jm0 engineZ rng0 = [] ∧
      (advanceTimestep jm0 engineZ rng0).1.st.total_penalty = 4500000 := by
  constructor
  · exact commandsAt_target_zero jm0 engineZ rng0
      (by norm_num [tickTarget, engineZ, initEngine, scenZ, cfgZ])
      (by norm_num [engineZ, initEngine])
  · have hach : tickAchieved jm0 engineZ rng0 = 3 := by
      norm_num [tickAchieved, engineZ, initEngine, scenZ, cfgZ, hvacZ, jm0,
        rng0, sigma0, tickContext, executeComposableStrategy,
        feedbackControlDispatch, DEFAULT_STRATEGY_CONFIG,
        DEFAULT_DISPATCH_INTENSITY, selectAndOrderAssets,
        calculateRampUpPercentage, RISK_POSTURE_PARAMS,
        calculateOrderingScore, orderingScoreParts, orderingCaseScore,
        List.enum, List.enumFrom, getAvailableCapacity, Asset.droppedFlag,
        Asset.id, Asset.type, jsSortBy, insertLe, adjustTargetForObjective,
        dispatchToTarget, dispatchLoop, createDispatchCommand,
        getCommandContribution, perfScore, calculateHeadroom,
        nextAccumulatedError, List.filter, List.foldl, List.map, List.lookup,
        max_def, Int.toNat, List.take, ceil_as_floor, jsMapGet, assetMapGet,
        assetLoop, updateAsset, updateHvacResi, appliedCommand,
        rollNoncompliance, Rng.next, updateBaselineDrift,
        applyMeasurementNoise, TIMESTEP_HOURS, DIFFICULTY_PRESETS, min_def,
        HvacMode.cooling]
    have h := (advance_penalty_total jm0 engineZ rng0 (by
      norm_num [engineZ, initEngine, scenZ, cfgZ]))
    rw [h, hach]
    have htg : tickTarget engineZ = 0 := by
      norm_num [tickTarget, engineZ, initEngine, scenZ, cfgZ]
    rw [htg]
    have h1 : (|(0:ℚ) - 3| / (0 + 1/1000) : ℚ) = 3000 := by norm_num
    have h2 : ((DIFFICULTY_PRESETS engineZ.difficulty).penalty_exponent : ℚ)
        = 2 := by norm_num [engineZ, initEngine, DIFFICULTY_PRESETS]
    have h3 : ((DIFFICULTY_PRESETS engineZ.difficulty).over_penalty_scale : ℚ)
        = 1/2 := by norm_num [engineZ, initEngine, DIFFICULTY_PRESETS]
    rw [penaltyFormula, h1, h2, h3, if_pos (by norm_num : (0:ℚ) < 3)]
    rw [jsPow, show (((2:ℚ)):ℝ) = ((2:ℕ):ℝ) by norm_num, Real.rpow_natCast]
    have : engineZ.st.total_penalty = 0 := rfl
    rw [this]
    push_cast
    norm_num

/-- C7: the engine performs no configuration validation: constructed with a
greedy framework paired with a feedback subtype and an empty ordering list,
it still executes a full tick (recording a TimestepResult and advancing the
tick counter), and with an empty ordering list the normalizing weight sum of
the composite score is 0, so the mid-tick score divides zero by zero (NaN in
the source). -/
theorem C7_invalid_config_ticks :
    (advanceTimestep jm0 engineBad rng0).1.st.current_timestep = 1 ∧
    (advanceTimestep jm0 engineBad rng0).1.st.history.length = 1 ∧
    (orderingScoreParts jm0 (Asset.battery bat0)
      badStrategyConfig.selectionOrderings (tickContext engineBad)).2 = 0 := by
  refine ⟨?_, ?_, by norm_num [orderingScoreParts, badStrategyConfig,
    List.enum, List.enumFrom]⟩ <;>
  norm_num [advanceTimestep, engineBad, initEngine, scenB, cfgB, bat0, jm0,
    rng0, sigma0, badStrategyConfig, tickContext, executeComposableStrategy,
    greedyDispatch, selectAndOrderAssets, calculateRampUpPercentage,
    RISK_POSTURE_PARAMS, calculateOrderingScore, orderingScoreParts,
    orderingCaseScore, List.enum, List.enumFrom, getAvailableCapacity,
    Asset.droppedFlag, Asset.id, Asset.type, jsSortBy, insertLe,
    adjustTargetForObjective, dispatchToTarget, dispatchLoop,
    createDispatchCommand, getCommandContribution, perfScore,
    calculateHeadroom, nextAccumulatedError, List.filter, List.foldl,
    List.map, List.lookup, max_def, Int.toNat, List.take, ceil_as_floor,
    jsMapGet, assetMapGet, scoreMapSet, ByType.inc, ByType.zero, assetLoop,
    updateAsset, updateBatteryResi, appliedCommand, rollNoncompliance,
    Rng.next, updateBaselineDrift, applyMeasurementNoise, TIMESTEP_HOURS,
    round1, jround, DIFFICULTY_PRESETS, updateScores,
    AssetCommand.read_power_kw, min_def]

end Vpp
